import Mathlib

/-! qsing-box: subscription sync and configuration reconciliation.

A shallow embedding of the subscription handlers of `src/main_window.cpp`
(`MainWindow::changeSelectedConfig`, `on_saveUrlButton_clicked`,
`on_updateConfigButton_clicked`, `updateSubscriptionConfig`,
`onConfigDownloadFinished`, `onConfigDownloadError`, `loadSubscriptionUrl`,
`saveSubscriptionUrl`, `isValidUrl`, `checkOpenSSLStatus`).

Conventions of the embedding.

* The window object is the record `MainWindow`; every handler is a function
  from the window before the call to the window after it.
* Qt library routines the handlers call (the JSON parser, `QUrl`,
  `QString::trimmed`, `QString::arg`, ...) are not code of the repository; they
  are the fields of `QtLib`, and every theorem holds for all of them.
* What a handler reads from the outside world while it runs (the reply's error
  and body, the clock, whether a file can be opened, the process state kept by
  `ProxyManager`, the catalog kept by `ConfigManager`) is the record `Env`.
* Calls made on collaborators are recorded, in order, in per-collaborator
  logs: `proxyCalls`, `netCalls`, `dialogs`, `uiLog`, `fileOps`.
* `tr` is the identity (no translation is installed).
-/

namespace QSingBox

/-- A `QByteArray`: a finite sequence of bytes. -/
abbrev QByteArray := List (Fin 256)

/-- The values of `QProcess::ProcessState`. -/
inductive ProcessState where
  | NotRunning
  | Starting
  | Running
  deriving DecidableEq, Repr

/-- The values of `QNetworkReply::NetworkError` the handlers distinguish; every
other value is `Other code`. -/
inductive NetworkError where
  | NoError
  | OperationCanceledError
  | SslHandshakeFailedError
  | Other (code : Nat)
  deriving DecidableEq, Repr

/-- What `QJsonDocument::fromJson(data, &error)` hands back, seen through the
queries the handlers make on it. -/
structure JsonParse where
  /-- `error.error == QJsonParseError::NoError` -/
  noError : Bool
  /-- `error.errorString()` -/
  errorString : String
  /-- `jsonDoc.isObject()` -/
  isObject : Bool
  /-- `jsonDoc.object().contains(key)` -/
  contains : String → Bool
  /-- `jsonDoc.toJson(QJsonDocument::Indented)` -/
  toJsonIndented : String

/-- Qt library routines and build constants used by the handlers. -/
structure QtLib where
  /-- `QJsonDocument::fromJson` -/
  fromJson : QByteArray → JsonParse
  /-- `QString::trimmed` -/
  trimmed : String → String
  /-- `QUrl(url).isValid()` -/
  urlIsValid : String → Bool
  /-- `QUrl(url).scheme()` -/
  urlScheme : String → String
  /-- `QString::arg`: `arg t a` is `t.arg(a)` -/
  arg : String → String → String
  /-- `QString::fromUtf8` -/
  fromUtf8 : QByteArray → String
  /-- `s.contains(needle, Qt::CaseInsensitive)` as `containsCI s needle` -/
  containsCI : String → String → Bool
  /-- `s.split(sep)` -/
  split : String → Char → List String
  /-- `QDir(dir).filePath(name)` -/
  filePath : String → String → String
  /-- The build constant `PROJECT_VERSION`. -/
  PROJECT_VERSION : String

/-- Observations of the outside world available to one handler run. Replies are
named by the number `QNetworkAccessManager::get` gave them. -/
structure Env where
  /-- `reply->error()` -/
  replyError : Nat → NetworkError
  /-- `reply->errorString()` -/
  replyErrorString : Nat → String
  /-- `reply->readAll()` -/
  replyReadAll : Nat → QByteArray
  /-- `QDateTime::currentDateTime().toString("yyyy-MM-dd hh:mm:ss")` -/
  currentDateTime : String
  /-- whether `file.open(QIODevice::WriteOnly)` on the config file succeeds -/
  openWriteOnly : Bool
  /-- how many bytes `file.write(configData)` stores (all of them when this is
  at least the length of the data, fewer on a short or failed write) -/
  written : Nat
  /-- whether `file.open(QIODevice::ReadOnly)` on the config file succeeds -/
  openReadOnly : Bool
  /-- `m_proxyManager->proxyProcessState()` -/
  proxyProcessState : ProcessState
  /-- `m_configManager->configCount()` -/
  configCount : Int
  /-- `m_configManager->configName()` -/
  configName : String
  /-- `m_configManager->configIndex()` -/
  configIndex : Int
  /-- `m_configManager->configFilePath()` -/
  configFilePath : String
  /-- `QSslSocket::supportsSsl()` -/
  supportsSsl : Bool
  /-- `QSslSocket::sslLibraryBuildVersionString()` -/
  sslLibraryBuildVersionString : String
  /-- `QSslSocket::sslLibraryVersionString()` -/
  sslLibraryVersionString : String
  /-- `QDir(path).exists()` -/
  dirExists : String → Bool
  /-- `QFile::exists(path)` for paths other than the config file -/
  fileExists : String → Bool
  /-- `qEnvironmentVariable("PATH")` -/
  pathEnv : String

/-- Modelled from the spec: the requests `MainWindow` sends to the process
manager (`proxy_manager.h` is not among the sources; section 6 of the spec gives
its interface as fire-and-forget start/stop requests plus a state query). -/
inductive ProxyCall where
  | setConfigFilePath (path : String)
  | stopProxy
  | startProxy
  deriving DecidableEq, Repr

/-- Calls on the network layer: `QNetworkAccessManager::get` (with the request's
URL, user-agent header and redirect policy, which is always
`NoLessSafeRedirectPolicy`), `QNetworkReply::abort`, `QObject::deleteLater`. -/
inductive NetCall where
  | get (reply : Nat) (url : String) (userAgent : String)
  | abort (reply : Nat)
  | deleteLater (reply : Nat)
  deriving DecidableEq, Repr

/-- Message boxes shown to the user. -/
inductive Dialog where
  | warning (title text : String)
  | information (title text : String)
  deriving DecidableEq, Repr

/-- Text changes made to the widgets of the window. -/
inductive UiCall where
  | configStatusLabel_setText (text : String)
  | configPreviewEdit_setPlainText (text : String)
  | subscriptionUrlEdit_setText (text : String)
  | outputEdit_clear
  deriving DecidableEq, Repr

/-- Operations on the subscription config file. -/
inductive FileOp where
  | openReadOnly (ok : Bool)
  | openWriteOnly (ok : Bool)
  | write (data : QByteArray)
  deriving DecidableEq, Repr

/-- The window object together with the persistent state it owns. -/
structure MainWindow where
  /-- `m_subscriptionUrl` -/
  m_subscriptionUrl : String
  /-- `m_configFilePath` -/
  m_configFilePath : String
  /-- `m_currentReply` (`none` is `nullptr`) -/
  m_currentReply : Option Nat
  /-- the number the next `get` gives its reply -/
  nextReply : Nat
  /-- `m_updateTimer->isActive()` -/
  timerActive : Bool
  /-- text of `ui->configStatusLabel` -/
  configStatusLabel : String
  /-- text of `ui->configPreviewEdit` -/
  configPreviewEdit : String
  /-- text of `ui->subscriptionUrlEdit` -/
  subscriptionUrlEdit : String
  /-- the value stored under `subscription/url` in `QSettings` -/
  settingsUrl : String
  /-- the file at `m_configFilePath`: `none` when it does not exist -/
  configFile : Option QByteArray
  proxyCalls : List ProxyCall
  netCalls : List NetCall
  dialogs : List Dialog
  uiLog : List UiCall
  fileOps : List FileOp
  deriving DecidableEq, Repr

namespace MainWindow

/-- `ui->configStatusLabel->setText(text)` -/
def setStatusLabel (w : MainWindow) (text : String) : MainWindow :=
  { w with configStatusLabel := text,
           uiLog := w.uiLog ++ [UiCall.configStatusLabel_setText text] }

/-- `ui->configPreviewEdit->setPlainText(text)` -/
def setPreview (w : MainWindow) (text : String) : MainWindow :=
  { w with configPreviewEdit := text,
           uiLog := w.uiLog ++ [UiCall.configPreviewEdit_setPlainText text] }

/-- `QMessageBox::warning` / `QMessageBox::information` -/
def showDialog (w : MainWindow) (d : Dialog) : MainWindow :=
  { w with dialogs := w.dialogs ++ [d] }

/-- `m_currentReply->deleteLater()` -/
def deleteLater (w : MainWindow) (reply : Nat) : MainWindow :=
  { w with netCalls := w.netCalls ++ [NetCall.deleteLater reply] }

/-- `MainWindow::startProxy` -/
def startProxy (w : MainWindow) : MainWindow :=
  { w with proxyCalls := w.proxyCalls ++ [ProxyCall.startProxy],
           uiLog := w.uiLog ++ [UiCall.outputEdit_clear] }

/-- `MainWindow::stopProxy` -/
def stopProxy (w : MainWindow) : MainWindow :=
  { w with proxyCalls := w.proxyCalls ++ [ProxyCall.stopProxy] }

/-- `m_proxyManager->setConfigFilePath(path)` -/
def setConfigFilePath (w : MainWindow) (path : String) : MainWindow :=
  { w with proxyCalls := w.proxyCalls ++ [ProxyCall.setConfigFilePath path] }

/-- `MainWindow::updateConfigStatus` -/
def updateConfigStatus (w : MainWindow) (message : String) : MainWindow :=
  w.setStatusLabel message

/-- The recurring block
`if (m_proxyManager->proxyProcessState() == QProcess::Running) stopProxy();`. -/
def stopIfRunning (env : Env) (w : MainWindow) : MainWindow :=
  if env.proxyProcessState = ProcessState.Running then w.stopProxy else w

/-- The recurring block
`if (... == QProcess::Running) { stopProxy(); startProxy(); }`. -/
def restartIfRunning (env : Env) (w : MainWindow) : MainWindow :=
  if env.proxyProcessState = ProcessState.Running then w.stopProxy.startProxy else w

/-- `MainWindow::changeSelectedConfig` -/
def changeSelectedConfig (qt : QtLib) (env : Env) (w : MainWindow) : MainWindow :=
  if w.m_subscriptionUrl ≠ "" ∧ w.configFile.isSome then
    let w := { w with fileOps := w.fileOps ++ [FileOp.openReadOnly env.openReadOnly] }
    if env.openReadOnly then
      let content : QByteArray := w.configFile.getD []
      if content ≠ [] then
        let jsonDoc := qt.fromJson content
        if jsonDoc.noError ∧ jsonDoc.isObject then
          if jsonDoc.contains "inbounds" ∨ jsonDoc.contains "outbounds" then
            let w := w.setStatusLabel "Status: Using subscription config"
            let w := w.setConfigFilePath w.m_configFilePath
            let w := w.setPreview jsonDoc.toJsonIndented
            restartIfRunning env w
          else
            let w := w.setStatusLabel "Status: Invalid config - missing inbounds/outbounds"
            let w := w.setPreview
              "Error: Configuration appears to be invalid.\nMissing required 'inbounds' or 'outbounds' sections."
            stopIfRunning env w
        else
          let w := w.setStatusLabel "Status: Invalid JSON config"
          let w := w.setPreview
            (qt.arg "Error: Invalid JSON configuration.\nParse error: %1" jsonDoc.errorString)
          stopIfRunning env w
      else
        let w := w.setStatusLabel "Status: Empty config file"
        let w := w.setPreview "Error: Configuration file is empty"
        stopIfRunning env w
    else
      let w := w.setStatusLabel "Status: Cannot read config file"
      let w := w.setPreview "Error: Cannot read configuration file"
      stopIfRunning env w
  else if env.configCount = 0 then
    let w := w.setStatusLabel "Status: No configuration available"
    let w := w.setPreview
      "No configuration available.\nPlease enter a subscription URL or import a configuration file."
    stopIfRunning env w
  else
    let w := w.setStatusLabel (qt.arg "Status: Using local config: %1" env.configName)
    let w := w.setPreview "Using local configuration file"
    let w := w.setConfigFilePath env.configFilePath
    restartIfRunning env w

/-- `MainWindow::updateSubscriptionConfig` -/
def updateSubscriptionConfig (qt : QtLib) (w : MainWindow) : MainWindow :=
  if w.m_subscriptionUrl = "" then w
  else
    let w := match w.m_currentReply with
      | some r =>
        { w with netCalls := w.netCalls ++ [NetCall.abort r, NetCall.deleteLater r],
                 m_currentReply := none }
      | none => w
    let w := { w with
      netCalls := w.netCalls ++
        [NetCall.get w.nextReply w.m_subscriptionUrl ("qsing-box/" ++ qt.PROJECT_VERSION)],
      m_currentReply := some w.nextReply,
      nextReply := w.nextReply + 1 }
    w.updateConfigStatus "Downloading config from subscription..."

/-- `MainWindow::saveSubscriptionUrl` -/
def saveSubscriptionUrl (w : MainWindow) : MainWindow :=
  { w with settingsUrl := w.m_subscriptionUrl }

/-- `MainWindow::isValidUrl`: the returned flag and the window after the call. -/
def isValidUrl (qt : QtLib) (w : MainWindow) (url : String) : Bool × MainWindow :=
  let isValid : Bool :=
    qt.urlIsValid url && (qt.urlScheme url == "http" || qt.urlScheme url == "https")
  let w := if isValid ∧ qt.urlScheme url = "http" then
      w.showDialog (Dialog.information "HTTP URL"
        "Warning: Using HTTP instead of HTTPS. Data will not be encrypted.")
    else w
  (isValid, w)

/-- `MainWindow::on_saveUrlButton_clicked` -/
def on_saveUrlButton_clicked (qt : QtLib) (w : MainWindow) : MainWindow :=
  let url := qt.trimmed w.subscriptionUrlEdit
  if url = "" then
    w.showDialog (Dialog.warning "Warning" "Please enter a subscription URL.")
  else
    let r := w.isValidUrl qt url
    let w := r.2
    if r.1 = false then
      w.showDialog (Dialog.warning "Warning" "Please enter a valid URL.")
    else
      let w := { w with m_subscriptionUrl := url }
      let w := w.saveSubscriptionUrl
      let w := w.updateConfigStatus "Saving URL and fetching config..."
      let w := w.updateSubscriptionConfig qt
      let w := { w with timerActive := true }
      w.showDialog (Dialog.information "Success" "Subscription URL saved successfully!")

/-- `MainWindow::on_updateConfigButton_clicked` -/
def on_updateConfigButton_clicked (qt : QtLib) (w : MainWindow) : MainWindow :=
  if w.m_subscriptionUrl = "" then
    w.showDialog (Dialog.warning "Warning" "No subscription URL configured.")
  else
    let w := w.updateConfigStatus "Manually updating config..."
    w.updateSubscriptionConfig qt

/-- `MainWindow::checkOpenSSLStatus` -/
def checkOpenSSLStatus (qt : QtLib) (env : Env) : String :=
  let diagnostics := "OpenSSL Diagnostics:\n"
  let diagnostics :=
    if env.supportsSsl = false then
      diagnostics ++ "- Qt SSL support: NOT AVAILABLE\n" ++
        "- This is likely the main issue. Qt was built without SSL support.\n"
    else
      diagnostics ++ "- Qt SSL support: Available\n" ++
        qt.arg "- SSL Library Build Version: %1\n" env.sslLibraryBuildVersionString ++
        qt.arg "- SSL Library Runtime Version: %1\n" env.sslLibraryVersionString
  let opensslPaths : List String := [
    "C:/Program Files/OpenSSL-Win64/bin",
    "C:/Program Files (x86)/OpenSSL-Win32/bin",
    "C:/OpenSSL-Win64/bin",
    "C:/OpenSSL-Win32/bin" ]
  let found := opensslPaths.find?
    (fun path => env.dirExists path && env.fileExists (qt.filePath path "openssl.exe"))
  let diagnostics := match found with
    | some path => diagnostics ++ qt.arg "- OpenSSL found at: %1\n" path
    | none => diagnostics
  let opensslFound := found.isSome
  let diagnostics :=
    if opensslFound = false then
      diagnostics ++ "- OpenSSL installation: NOT FOUND in standard locations\n" ++
        "- Try reinstalling OpenSSL from https://slproweb.com/products/Win32OpenSSL.html\n"
    else diagnostics
  let inPath := (qt.split env.pathEnv ';').filter
    (fun pathDir => qt.containsCI pathDir "OpenSSL" && env.dirExists pathDir)
  let diagnostics :=
    inPath.foldl (fun acc pathDir => acc ++ qt.arg "- OpenSSL in PATH: %1\n" pathDir) diagnostics
  let diagnostics :=
    if inPath = [] then
      diagnostics ++ "- OpenSSL not found in PATH environment variable\n"
    else diagnostics
  let diagnostics := diagnostics ++ "\nSuggestions:\n"
  let diagnostics :=
    if env.supportsSsl = false then
      diagnostics ++ "1. Reinstall Qt with SSL support or use the installer to get OpenSSL\n"
    else diagnostics
  let diagnostics :=
    if opensslFound = false then
      diagnostics ++ "2. Install OpenSSL from https://slproweb.com/products/Win32OpenSSL.html\n" ++
        "3. Run the qsing-box installer which includes automatic OpenSSL installation\n"
    else diagnostics
  diagnostics ++ "4. Restart the application after installing OpenSSL\n"

/-- The closing lines `m_currentReply->deleteLater(); m_currentReply = nullptr;`
shared by the paths of both download handlers. -/
def dropReply (w : MainWindow) (reply : Nat) : MainWindow :=
  { w.deleteLater reply with m_currentReply := none }

/-- The block under `// Save to file` of `onConfigDownloadFinished`
(`QFile file(m_configFilePath); if (file.open(QIODevice::WriteOnly)) ... else ...`). -/
def saveToFile (qt : QtLib) (env : Env) (w : MainWindow) (configData : QByteArray) :
    MainWindow :=
  let w := { w with fileOps := w.fileOps ++ [FileOp.openWriteOnly env.openWriteOnly] }
  if env.openWriteOnly then
    -- opening with `WriteOnly` truncates the file
    let w := { w with configFile := some [] }
    -- `file.write(configData)`; the returned count is not looked at
    let w := { w with configFile := some (configData.take env.written),
                      fileOps := w.fileOps ++ [FileOp.write configData] }
    let w := w.updateConfigStatus
      (qt.arg "Config updated successfully. Last update: %1" env.currentDateTime)
    w.changeSelectedConfig qt env
  else
    let w := w.updateConfigStatus "Error: Failed to save config file"
    w.setPreview "Error: Failed to save config file"

/-- `MainWindow::onConfigDownloadFinished` -/
def onConfigDownloadFinished (qt : QtLib) (env : Env) (w : MainWindow) : MainWindow :=
  match w.m_currentReply with
  | none => w
  | some reply =>
    if env.replyError reply = NetworkError.NoError then
      let configData := env.replyReadAll reply
      if configData ≠ [] then
        let jsonDoc := qt.fromJson configData
        if jsonDoc.noError = false then
          let w := w.updateConfigStatus "Error: Downloaded config is not valid JSON"
          let w := w.setPreview
            (qt.arg
              (qt.arg "Error: Invalid JSON downloaded.\nParse error: %1\n\nRaw content:\n%2"
                jsonDoc.errorString)
              (qt.fromUtf8 configData))
          w.dropReply reply
        else if jsonDoc.isObject = false then
          let w := w.updateConfigStatus "Error: Downloaded config is not a JSON object"
          let w := w.setPreview "Error: Downloaded config is not a valid JSON object"
          w.dropReply reply
        else if jsonDoc.contains "inbounds" = false ∧ jsonDoc.contains "outbounds" = false then
          let w := w.updateConfigStatus "Error: Downloaded config missing required sections"
          let w := w.setPreview
            "Error: Downloaded configuration is missing required 'inbounds' or 'outbounds' sections.\nThis doesn't appear to be a valid sing-box configuration."
          w.dropReply reply
        else
          let w := w.setPreview jsonDoc.toJsonIndented
          let w := w.saveToFile qt env configData
          w.dropReply reply
      else
        let w := w.updateConfigStatus "Error: Empty config received"
        let w := w.setPreview "Error: Empty config received from subscription URL"
        w.dropReply reply
    else
      w.dropReply reply

/-- `MainWindow::onConfigDownloadError` -/
def onConfigDownloadError (qt : QtLib) (env : Env) (w : MainWindow) (error : NetworkError) :
    MainWindow :=
  match w.m_currentReply with
  | none => w
  | some reply =>
    let errorString := env.replyErrorString reply
    let w :=
      if error = NetworkError.SslHandshakeFailedError ∨
          qt.containsCI errorString "tls initialization failed" = true ∨
          qt.containsCI errorString "ssl" = true then
        let tlsStatus := checkOpenSSLStatus qt env
        let w := w.updateConfigStatus (qt.arg (qt.arg "TLS Error: %1. %2" errorString) tlsStatus)
        w.setPreview
          (qt.arg (qt.arg "TLS Error: %1\n\nTroubleshooting:\n%2" errorString) tlsStatus)
      else
        let w := w.updateConfigStatus (qt.arg "Error downloading config: %1" errorString)
        w.setPreview (qt.arg "Download Error: %1" errorString)
    w.dropReply reply

/-- `MainWindow::loadSubscriptionUrl` -/
def loadSubscriptionUrl (qt : QtLib) (w : MainWindow) : MainWindow :=
  let w := { w with m_subscriptionUrl := w.settingsUrl }
  let w := { w with subscriptionUrlEdit := w.m_subscriptionUrl,
                    uiLog := w.uiLog ++ [UiCall.subscriptionUrlEdit_setText w.m_subscriptionUrl] }
  if w.m_subscriptionUrl ≠ "" then
    let w := w.updateConfigStatus "Subscription URL loaded. Fetching config..."
    let w := w.updateSubscriptionConfig qt
    { w with timerActive := true }
  else
    w.updateConfigStatus "No subscription configured"

/-- The subscription part of the constructor `MainWindow::MainWindow`, run on
the persistent state found at start-up: the application data directory, the
stored `subscription/url` and the config file. -/
def construct (qt : QtLib) (env : Env) (appDataPath settingsUrl : String)
    (configFile : Option QByteArray) : MainWindow :=
  let w : MainWindow :=
    { m_subscriptionUrl := "",
      m_configFilePath := appDataPath ++ "/subscription_config.json",
      m_currentReply := none,
      nextReply := 0,
      timerActive := false,
      configStatusLabel := "",
      configPreviewEdit := "",
      subscriptionUrlEdit := "",
      settingsUrl := settingsUrl,
      configFile := configFile,
      proxyCalls := [],
      netCalls := [],
      dialogs := [],
      uiLog := [],
      fileOps := [] }
  let w := w.setPreview "No configuration downloaded yet"
  let w := w.loadSubscriptionUrl qt
  w.changeSelectedConfig qt env

end MainWindow

/-- The events the window reacts to, named after the slot or signal:
the user editing the URL field, the buttons, `ConfigManager::configChanged`
(connected to `changeSelectedConfig`), `QTimer::timeout` of the update timer
(connected to `updateSubscriptionConfig`), and `finished reply` and
`errorOccurred reply error`, the signals of a reply created by
`updateSubscriptionConfig`, which connects both to the window. A reply that was
aborted and replaced may still deliver its signals afterwards. -/
inductive Event where
  | subscriptionUrlEdited (text : String)
  | saveUrlButton_clicked
  | updateConfigButton_clicked
  | startButton_clicked
  | stopButton_clicked
  | configChanged
  | timeout
  | finished (reply : Nat)
  | errorOccurred (reply : Nat) (error : NetworkError)
  deriving DecidableEq, Repr

/-- One turn of the event loop: the slot connected to the event runs to
completion. A timer that is not active does not fire, and only replies that
`get` has handed out emit signals. -/
def step (qt : QtLib) (env : Env) (w : MainWindow) : Event → MainWindow
  | Event.subscriptionUrlEdited text => { w with subscriptionUrlEdit := text }
  | Event.saveUrlButton_clicked => w.on_saveUrlButton_clicked qt
  | Event.updateConfigButton_clicked => w.on_updateConfigButton_clicked qt
  | Event.startButton_clicked => w.startProxy
  | Event.stopButton_clicked => w.stopProxy
  | Event.configChanged => w.changeSelectedConfig qt env
  | Event.timeout => if w.timerActive then w.updateSubscriptionConfig qt else w
  | Event.finished reply =>
    if reply < w.nextReply then w.onConfigDownloadFinished qt env else w
  | Event.errorOccurred reply error =>
    if reply < w.nextReply then w.onConfigDownloadError qt env error else w

/-- The windows the event loop can produce from a freshly constructed one. -/
inductive Reachable (qt : QtLib) : MainWindow → Prop where
  | construct (env : Env) (appDataPath settingsUrl : String) (configFile : Option QByteArray) :
      Reachable qt (MainWindow.construct qt env appDataPath settingsUrl configFile)
  | step {w : MainWindow} (env : Env) (e : Event) :
      Reachable qt w → Reachable qt (step qt env w e)

/-! ## The validation of section 4.1 of the spec -/

/-- The error kinds of `ValidationError` in section 4.1 of the spec. -/
inductive ValidationError where
  | Empty
  | Malformed (parserMessage : String)
  | NotAnObject
  | MissingRequiredSections
  deriving DecidableEq, Repr

/-- The result of the spec's `validate`: an error kind, or a valid document
with its pretty-printed rendering. -/
inductive Validation where
  | invalid (e : ValidationError)
  | valid (rendering : String)
  deriving DecidableEq, Repr

/-- The classification `validate(bytes)` as section 4.1 of the spec words it
(this definition follows the spec, not the source; the handlers above are
compared with it). -/
def validate (qt : QtLib) (bytes : QByteArray) : Validation :=
  if bytes = [] then Validation.invalid ValidationError.Empty
  else if (qt.fromJson bytes).noError = false then
    Validation.invalid (ValidationError.Malformed (qt.fromJson bytes).errorString)
  else if (qt.fromJson bytes).isObject = false then
    Validation.invalid ValidationError.NotAnObject
  else if (qt.fromJson bytes).contains "inbounds" = false ∧
      (qt.fromJson bytes).contains "outbounds" = false then
    Validation.invalid ValidationError.MissingRequiredSections
  else Validation.valid (qt.fromJson bytes).toJsonIndented

/-- The invariant behind every fetch: a window holding a reply has a URL. -/
def HasUrlWhenFetching (w : MainWindow) : Prop :=
  w.m_currentReply ≠ none → w.m_subscriptionUrl ≠ ""

/-- The checks `changeSelectedConfig` makes on the content read from the config
file before it takes the `Using subscription config` path: non-empty, parsed
without error, an object, and holding `inbounds` or `outbounds`. -/
def DiskConfigAccepted (qt : QtLib) (content : QByteArray) : Prop :=
  content ≠ [] ∧ ((qt.fromJson content).noError = true ∧ (qt.fromJson content).isObject = true) ∧
    ((qt.fromJson content).contains "inbounds" = true ∨
      (qt.fromJson content).contains "outbounds" = true)

instance (qt : QtLib) (content : QByteArray) : Decidable (DiskConfigAccepted qt content) := by
  unfold DiskConfigAccepted
  infer_instance

/-- The requests issued by `stopProxy(); startProxy();` under the guard
`proxyProcessState() == QProcess::Running`. -/
def restartCalls (env : Env) : List ProxyCall :=
  if env.proxyProcessState = ProcessState.Running
  then [ProxyCall.stopProxy, ProxyCall.startProxy] else []

/-- The requests issued by `stopProxy();` under the guard
`proxyProcessState() == QProcess::Running`. -/
def stopCalls (env : Env) : List ProxyCall :=
  if env.proxyProcessState = ProcessState.Running then [ProxyCall.stopProxy] else []

/-- The invariant of the subscription URL in section 3 of the spec: empty, or a
URL that `QUrl` accepts and whose scheme is `http` or `https`. -/
def ValidSubscriptionUrl (qt : QtLib) (url : String) : Prop :=
  url = "" ∨ (qt.urlIsValid url = true ∧ (qt.urlScheme url = "http" ∨ qt.urlScheme url = "https"))

instance (qt : QtLib) (url : String) : Decidable (ValidSubscriptionUrl qt url) := by
  unfold ValidSubscriptionUrl
  infer_instance

/-- The windows the event loop can produce from the window `w0`. -/
inductive ReachableFrom (qt : QtLib) (w0 : MainWindow) : MainWindow → Prop where
  | start : ReachableFrom qt w0 w0
  | step {w : MainWindow} (env : Env) (e : Event) :
      ReachableFrom qt w0 w → ReachableFrom qt w0 (step qt env w e)

/-! ## Sample instances, used to run the handlers on concrete inputs -/

namespace Sample

/-- The bytes of `{"inbounds":[]}`. -/
def inboundsDoc : QByteArray :=
  [123, 34, 105, 110, 98, 111, 117, 110, 100, 115, 34, 58, 91, 93, 125]

/-- The bytes of `{"foo":"bar"}`. -/
def fooDoc : QByteArray := [123, 34, 102, 111, 111, 34, 58, 34, 98, 97, 114, 34, 125]

/-- The bytes of `{"outbounds":[]}`. -/
def outboundsDoc : QByteArray :=
  [123, 34, 111, 117, 116, 98, 111, 117, 110, 100, 115, 34, 58, 91, 93, 125]

/-- The bytes of `[]`. -/
def arrayDoc : QByteArray := [91, 93]

/-- The bytes of `not json`. -/
def notJson : QByteArray := [110, 111, 116, 32, 106, 115, 111, 110]

/-- A stand-in for `QJsonDocument::fromJson` that gives Qt's answer on
`inboundsDoc`, `outboundsDoc`, `fooDoc` and `arrayDoc` and reports a parse error
on every other buffer (as Qt does on `notJson` and on the proper initial
segments of `inboundsDoc`, up to the wording of the message). -/
def fromJson (data : QByteArray) : JsonParse :=
  if data = inboundsDoc then
    { noError := true, errorString := "no error occurred", isObject := true,
      contains := fun key => key == "inbounds",
      toJsonIndented := "\x7b\n    \"inbounds\": [\n    ]\n\x7d\n" }
  else if data = outboundsDoc then
    { noError := true, errorString := "no error occurred", isObject := true,
      contains := fun key => key == "outbounds",
      toJsonIndented := "\x7b\n    \"outbounds\": [\n    ]\n\x7d\n" }
  else if data = fooDoc then
    { noError := true, errorString := "no error occurred", isObject := true,
      contains := fun key => key == "foo",
      toJsonIndented := "\x7b\n    \"foo\": \"bar\"\n\x7d\n" }
  else if data = arrayDoc then
    { noError := true, errorString := "no error occurred", isObject := false,
      contains := fun _ => false,
      toJsonIndented := "[\n]\n" }
  else
    { noError := false, errorString := "illegal value", isObject := false,
      contains := fun _ => false,
      toJsonIndented := "" }

/-- Whether the place marker `%d` occurs in the text. -/
def hasMarker (d : Char) : List Char → Bool
  | [] => false
  | c :: rest => (c == '%' && rest.head? == some d) || hasMarker d rest

/-- Replace the occurrences of the place marker `%d` from left to right. -/
def replaceMarker (d : Char) (a : List Char) : List Char → List Char
  | [] => []
  | [c] => [c]
  | c :: e :: rest =>
    if c = '%' ∧ e = d then a ++ replaceMarker d a rest
    else c :: replaceMarker d a (e :: rest)

/-- A stand-in for `QString::arg` on templates whose markers are `%1` and `%2`:
the lower-numbered marker present is replaced. Chained calls behave as the Qt
documentation describes: `QString("%1 %2").arg("%1").arg("Hello")` is
`Hello %2`, because the second call finds the `%1` the first one inserted. -/
def arg (t a : String) : String :=
  if hasMarker '1' t.data then String.mk (replaceMarker '1' a.data t.data)
  else if hasMarker '2' t.data then String.mk (replaceMarker '2' a.data t.data)
  else t

/-- Blanks, tabs and line ends. -/
def isSpace (c : Char) : Bool := c == ' ' || c == '\t' || c == '\n' || c == '\r'

/-- A stand-in for `QString::trimmed` on texts whose white space is ASCII. -/
def trimmed (s : String) : String :=
  String.mk ((s.data.dropWhile isSpace).reverse.dropWhile isSpace).reverse

/-- A stand-in for `QUrl::scheme`: the text before the first colon, in lower
case; empty when there is no colon. -/
def urlScheme (s : String) : String :=
  if s.data.contains ':' then String.mk ((s.data.takeWhile (fun c => c != ':')).map Char.toLower)
  else ""

/-- A stand-in for `QUrl::isValid`: a non-empty text without blanks. -/
def urlIsValid (s : String) : Bool := s != "" && !s.data.contains ' '

/-- Whether the first list starts the second. -/
def startsWith : List Char → List Char → Bool
  | [], _ => true
  | _ :: _, [] => false
  | a :: as, b :: bs => a == b && startsWith as bs

/-- Whether the needle occurs in the text. -/
def occursIn (needle : List Char) : List Char → Bool
  | [] => needle.isEmpty
  | c :: rest => startsWith needle (c :: rest) || occursIn needle rest

/-- A stand-in for `QString::contains(needle, Qt::CaseInsensitive)` on ASCII. -/
def containsCI (s needle : String) : Bool :=
  occursIn (needle.data.map Char.toLower) (s.data.map Char.toLower)

/-- Split a text at every occurrence of the separator, keeping empty parts. -/
def splitChars (sep : Char) : List Char → List (List Char)
  | [] => [[]]
  | c :: rest =>
    match splitChars sep rest with
    | [] => [[]]
    | part :: parts => if c = sep then [] :: part :: parts else (c :: part) :: parts

/-- The sample Qt library. -/
def qt : QtLib where
  fromJson := fromJson
  trimmed := trimmed
  urlIsValid := urlIsValid
  urlScheme := urlScheme
  arg := arg
  fromUtf8 := fun data => String.mk (data.map (fun b => Char.ofNat b.val))
  containsCI := containsCI
  split := fun s sep => (splitChars sep s.data).map String.mk
  filePath := fun dir name => dir ++ "/" ++ name
  PROJECT_VERSION := "1.0.0"

/-- A sample outside world in which the reply numbered `0` has completed
without error and carries `body`, the process is in state `ps`, the config
file opens for writing iff `canWrite` and `file.write` stores `written` bytes;
the local catalog is empty. -/
def env (body : QByteArray) (ps : ProcessState) (canWrite : Bool) (written : Nat) : Env where
  replyError := fun _ => NetworkError.NoError
  replyErrorString := fun _ => "Unknown error"
  replyReadAll := fun r => if r = 0 then body else []
  currentDateTime := "2025-01-01 12:00:00"
  openWriteOnly := canWrite
  written := written
  openReadOnly := true
  proxyProcessState := ps
  configCount := 0
  configName := ""
  configIndex := -1
  configFilePath := ""
  supportsSsl := true
  sslLibraryBuildVersionString := "OpenSSL 3.0.0"
  sslLibraryVersionString := "OpenSSL 3.0.0"
  dirExists := fun _ => false
  fileExists := fun _ => false
  pathEnv := ""

/-- The window right after start-up with the stored subscription URL
`https://example.com/sub` and the config file holding `file`: start-up has
issued the fetch whose reply is numbered `0`. -/
def window (file : Option QByteArray) : MainWindow :=
  MainWindow.construct qt (env [] ProcessState.NotRunning true 0) "/data"
    "https://example.com/sub" file

/-- The sample window after a manual update was requested while reply `0` was
still outstanding: reply `0` has been aborted and replaced by reply `1`. -/
def replacedWindow : MainWindow :=
  step qt (env [] ProcessState.NotRunning true 0) (window none) Event.updateConfigButton_clicked

/-- The outside world as seen from `replacedWindow`: the aborted reply `0`
reports `OperationCanceledError`; reply `1` is still outstanding, with no error
and no data received yet. -/
def staleEnv : Env :=
  { env [] ProcessState.NotRunning true 15 with
    replyError := fun r =>
      if r = 0 then NetworkError.OperationCanceledError else NetworkError.NoError,
    replyErrorString := fun r => if r = 0 then "Operation canceled" else "Unknown error" }

/-- The window `replacedWindow` after the completion of reply `1`, the latest
fetch, was handled with the body `{"inbounds":[]}`. -/
def settledWindow : MainWindow :=
  step qt
    { env [] ProcessState.NotRunning true 15 with
      replyReadAll := fun r => if r = 1 then inboundsDoc else [] }
    replacedWindow (Event.finished 1)

/-- The sample window after the user typed `text` into the URL field. -/
def editedWindow (text : String) : MainWindow :=
  step qt (env [] ProcessState.NotRunning true 0) (window none)
    (Event.subscriptionUrlEdited text)

/-- A message of the form Qt's HTTP layer gives a reply whose server answered
`404` for the URL `https://ssl.example.com/sub?token=a%1Fb` (the message quotes
the URL, which holds a percent-encoded control character). -/
def notFoundMessage : String :=
  "Error transferring https://ssl.example.com/sub?token=a%1Fb - server replied: Not Found"

/-- The sample outside world in which reply `0` failed with
`ContentNotFoundError` (code 203) and the message `notFoundMessage`. -/
def notFoundEnv : Env :=
  { env [] ProcessState.NotRunning true 0 with
    replyError := fun _ => NetworkError.Other 203,
    replyErrorString := fun _ => notFoundMessage }

/-- The sample outside world with two entries in the local catalog, the entry
`home` being selected. -/
def catalogEnv (ps : ProcessState) : Env :=
  { env [] ps true 0 with
    configCount := 2, configName := "home", configIndex := 0,
    configFilePath := "/data/configs/home.json" }

end Sample

/-! ## Properties of the handlers -/

section Theorems

open MainWindow

set_option maxRecDepth 100000

/-- `changeSelectedConfig` changes neither the config file nor the fetch state
nor the stored URL. -/
theorem changeSelectedConfig_frame (qt : QtLib) (env : Env) (w : MainWindow) :
    (w.changeSelectedConfig qt env).configFile = w.configFile ∧
    (w.changeSelectedConfig qt env).m_currentReply = w.m_currentReply ∧
    (w.changeSelectedConfig qt env).m_subscriptionUrl = w.m_subscriptionUrl ∧
    (w.changeSelectedConfig qt env).netCalls = w.netCalls ∧
    (w.changeSelectedConfig qt env).dialogs = w.dialogs := by
  unfold changeSelectedConfig restartIfRunning stopIfRunning
  dsimp only
  split_ifs <;>
    simp [setStatusLabel, setPreview, setConfigFilePath, stopProxy, startProxy]

/-- `changeSelectedConfig` only appends to the widget log and to the file log. -/
theorem changeSelectedConfig_logs (qt : QtLib) (env : Env) (w : MainWindow) :
    (∃ ui, (w.changeSelectedConfig qt env).uiLog = w.uiLog ++ ui) ∧
    (∃ ops, (w.changeSelectedConfig qt env).fileOps = w.fileOps ++ ops) := by
  unfold changeSelectedConfig restartIfRunning stopIfRunning
  dsimp only
  split_ifs <;>
    simp [setStatusLabel, setPreview, setConfigFilePath, stopProxy, startProxy]

/-- The save block only appends to the widget log and to the file log, and its
first file operation is the attempt to open the file for writing. -/
theorem saveToFile_logs (qt : QtLib) (env : Env) (w : MainWindow) (configData : QByteArray) :
    (∃ ui, (w.saveToFile qt env configData).uiLog = w.uiLog ++ ui) ∧
    (∃ ops, (w.saveToFile qt env configData).fileOps =
      w.fileOps ++ FileOp.openWriteOnly env.openWriteOnly :: ops) := by
  unfold saveToFile
  dsimp only
  split_ifs with hopen
  · obtain ⟨⟨ui, hui⟩, ⟨ops, hops⟩⟩ := changeSelectedConfig_logs qt env
      (updateConfigStatus
        { w with
          configFile := some (configData.take env.written),
          fileOps := w.fileOps ++ [FileOp.openWriteOnly env.openWriteOnly] ++
            [FileOp.write configData] }
        (qt.arg "Config updated successfully. Last update: %1" env.currentDateTime))
    refine ⟨⟨UiCall.configStatusLabel_setText
        (qt.arg "Config updated successfully. Last update: %1" env.currentDateTime) :: ui,
        hui.trans ?_⟩, ⟨FileOp.write configData :: ops, hops.trans ?_⟩⟩
    · simp [updateConfigStatus, setStatusLabel]
    · simp [updateConfigStatus, setStatusLabel]
  · simp [updateConfigStatus, setStatusLabel, setPreview]

/-- The `Using subscription config` path of `changeSelectedConfig`: the URL is
set, the file exists, can be read, and its content passes the checks. -/
theorem changeSelectedConfig_subscription (qt : QtLib) (env : Env) (w : MainWindow)
    (content : QByteArray)
    (hurl : w.m_subscriptionUrl ≠ "")
    (hfile : w.configFile = some content)
    (hread : env.openReadOnly = true)
    (hne : content ≠ [])
    (hparse : (qt.fromJson content).noError = true)
    (hobj : (qt.fromJson content).isObject = true)
    (hkey : (qt.fromJson content).contains "inbounds" = true ∨
      (qt.fromJson content).contains "outbounds" = true) :
    w.changeSelectedConfig qt env =
      restartIfRunning env
        (((({ w with fileOps := w.fileOps ++ [FileOp.openReadOnly env.openReadOnly] } :
              MainWindow).setStatusLabel "Status: Using subscription config").setConfigFilePath
            w.m_configFilePath).setPreview (qt.fromJson content).toJsonIndented) := by
  unfold changeSelectedConfig
  simp [hurl, hfile, hread, hne, hparse, hobj, hkey, setStatusLabel, setConfigFilePath,
    setPreview]

/-- Both download handlers leave no current reply behind. -/
theorem onConfigDownloadFinished_currentReply (qt : QtLib) (env : Env) (w : MainWindow) :
    (w.onConfigDownloadFinished qt env).m_currentReply = none := by
  unfold onConfigDownloadFinished
  cases hcur : w.m_currentReply with
  | none => simpa using hcur
  | some reply =>
    simp only
    split_ifs <;> simp [dropReply]

/-- The error handler leaves no current reply behind. -/
theorem onConfigDownloadError_currentReply (qt : QtLib) (env : Env) (w : MainWindow)
    (error : NetworkError) :
    (w.onConfigDownloadError qt env error).m_currentReply = none := by
  unfold onConfigDownloadError
  cases hcur : w.m_currentReply with
  | none => simpa using hcur
  | some reply => simp [dropReply]

/-- `updateSubscriptionConfig` never changes the URL, and a window it leaves
with a current reply has a non-empty URL unless it was returned untouched. -/
theorem updateSubscriptionConfig_url (qt : QtLib) (w : MainWindow) :
    (w.updateSubscriptionConfig qt).m_subscriptionUrl = w.m_subscriptionUrl ∧
    (w.m_subscriptionUrl ≠ "" → (w.updateSubscriptionConfig qt).m_currentReply ≠ none) ∧
    (w.m_subscriptionUrl = "" → w.updateSubscriptionConfig qt = w) := by
  unfold updateSubscriptionConfig
  by_cases h : w.m_subscriptionUrl = ""
  · simp [h]
  · cases hcur : w.m_currentReply <;> simp [h, updateConfigStatus, setStatusLabel]

/-- `isValidUrl` only shows a dialog. -/
theorem isValidUrl_window (qt : QtLib) (w : MainWindow) (url : String) :
    ∃ ds, (w.isValidUrl qt url).2 = { w with dialogs := w.dialogs ++ ds } := by
  unfold isValidUrl
  dsimp only
  split_ifs
  · exact ⟨_, rfl⟩
  · exact ⟨[], by simp⟩

/-- Saving a URL keeps the invariant. -/
theorem on_saveUrlButton_clicked_hasUrl (qt : QtLib) (w : MainWindow)
    (h : HasUrlWhenFetching w) : HasUrlWhenFetching (w.on_saveUrlButton_clicked qt) := by
  obtain ⟨ds, hds⟩ := isValidUrl_window qt w (qt.trimmed w.subscriptionUrlEdit)
  unfold on_saveUrlButton_clicked
  dsimp only
  split_ifs with h1 h2
  · exact h
  · rw [hds]
    exact h
  · intro _
    simp only [showDialog]
    rw [(updateSubscriptionConfig_url qt _).1]
    simpa [updateConfigStatus, setStatusLabel, saveSubscriptionUrl] using h1

/-- A manual update keeps the invariant. -/
theorem on_updateConfigButton_clicked_hasUrl (qt : QtLib) (w : MainWindow)
    (h : HasUrlWhenFetching w) : HasUrlWhenFetching (w.on_updateConfigButton_clicked qt) := by
  unfold on_updateConfigButton_clicked
  split_ifs with h1
  · exact h
  · intro _
    dsimp only
    rw [(updateSubscriptionConfig_url qt _).1]
    simpa [updateConfigStatus, setStatusLabel] using h1

/-- A fetch keeps the invariant. -/
theorem updateSubscriptionConfig_hasUrl (qt : QtLib) (w : MainWindow)
    (h : HasUrlWhenFetching w) : HasUrlWhenFetching (w.updateSubscriptionConfig qt) := by
  by_cases h1 : w.m_subscriptionUrl = ""
  · rw [(updateSubscriptionConfig_url qt w).2.2 h1]
    exact h
  · intro _
    rw [(updateSubscriptionConfig_url qt w).1]
    exact h1

/-- The freshly constructed window satisfies the invariant. -/
theorem construct_hasUrl (qt : QtLib) (env : Env) (appDataPath settingsUrl : String)
    (configFile : Option QByteArray) :
    HasUrlWhenFetching (MainWindow.construct qt env appDataPath settingsUrl configFile) := by
  intro hcur
  unfold MainWindow.construct at hcur ⊢
  dsimp only at hcur ⊢
  rw [(changeSelectedConfig_frame qt env _).2.2.1]
  rw [(changeSelectedConfig_frame qt env _).2.1] at hcur
  unfold loadSubscriptionUrl at hcur ⊢
  by_cases hs : settingsUrl = ""
  · simp [hs, setPreview, updateConfigStatus, setStatusLabel] at hcur
  · simp only [setPreview, ne_eq, hs, not_false_eq_true, if_true]
    rw [(updateSubscriptionConfig_url qt _).1]
    simpa [updateConfigStatus, setStatusLabel] using hs

/-- In every reachable window a current reply implies a non-empty subscription
URL: a fetch is only ever started for a configured URL. -/
theorem Reachable.hasUrlWhenFetching {qt : QtLib} {w : MainWindow} (h : Reachable qt w) :
    HasUrlWhenFetching w := by
  induction h with
  | construct env appDataPath settingsUrl configFile =>
    exact construct_hasUrl qt env appDataPath settingsUrl configFile
  | @step v env e _ ih =>
    cases e with
    | subscriptionUrlEdited text => exact ih
    | saveUrlButton_clicked => exact on_saveUrlButton_clicked_hasUrl qt v ih
    | updateConfigButton_clicked => exact on_updateConfigButton_clicked_hasUrl qt v ih
    | startButton_clicked => exact ih
    | stopButton_clicked => exact ih
    | configChanged =>
      intro hcur
      simp only [QSingBox.step] at hcur ⊢
      rw [(changeSelectedConfig_frame qt env v).2.2.1]
      rw [(changeSelectedConfig_frame qt env v).2.1] at hcur
      exact ih hcur
    | timeout =>
      simp only [QSingBox.step]
      split_ifs
      · exact updateSubscriptionConfig_hasUrl qt v ih
      · exact ih
    | finished reply =>
      simp only [QSingBox.step]
      split_ifs
      · intro hcur
        exact absurd (onConfigDownloadFinished_currentReply qt env v) hcur
      · exact ih
    | errorOccurred reply error =>
      simp only [QSingBox.step]
      split_ifs
      · intro hcur
        exact absurd (onConfigDownloadError_currentReply qt env v error) hcur
      · exact ih

/-- The accepting path of `onConfigDownloadFinished`: preview, save block,
release of the reply. -/
theorem onConfigDownloadFinished_valid (qt : QtLib) (env : Env) (w : MainWindow) (reply : Nat)
    (hcur : w.m_currentReply = some reply)
    (herr : env.replyError reply = NetworkError.NoError)
    (hne : env.replyReadAll reply ≠ [])
    (hparse : (qt.fromJson (env.replyReadAll reply)).noError = true)
    (hobj : (qt.fromJson (env.replyReadAll reply)).isObject = true)
    (hkey : (qt.fromJson (env.replyReadAll reply)).contains "inbounds" = true ∨
      (qt.fromJson (env.replyReadAll reply)).contains "outbounds" = true) :
    w.onConfigDownloadFinished qt env =
      (((w.setPreview (qt.fromJson (env.replyReadAll reply)).toJsonIndented).saveToFile qt env
        (env.replyReadAll reply)).dropReply reply) := by
  unfold onConfigDownloadFinished
  simp only [hcur, herr]
  rcases hkey with hkey | hkey <;> simp [hne, hparse, hobj, hkey]

/-- The save block when the file opens for writing: the file is overwritten
with the bytes `file.write` stored, the success status is set, and
`changeSelectedConfig` runs. -/
theorem saveToFile_opened (qt : QtLib) (env : Env) (w : MainWindow) (configData : QByteArray)
    (hopen : env.openWriteOnly = true) :
    w.saveToFile qt env configData =
      changeSelectedConfig qt env
        (({ w with
            configFile := some (configData.take env.written),
            fileOps := w.fileOps ++ [FileOp.openWriteOnly true, FileOp.write configData] } :
          MainWindow).updateConfigStatus
          (qt.arg "Config updated successfully. Last update: %1" env.currentDateTime)) := by
  unfold saveToFile
  simp [hopen]

/-- The save block when the file cannot be opened for writing. -/
theorem saveToFile_not_opened (qt : QtLib) (env : Env) (w : MainWindow)
    (configData : QByteArray) (hopen : env.openWriteOnly = false) :
    w.saveToFile qt env configData =
      (({ w with fileOps := w.fileOps ++ [FileOp.openWriteOnly false] } :
          MainWindow).updateConfigStatus "Error: Failed to save config file").setPreview
        "Error: Failed to save config file" := by
  unfold saveToFile
  simp [hopen]

/-- A fetch started for a configured URL makes the fresh reply current. -/
theorem updateSubscriptionConfig_currentReply (qt : QtLib) (w : MainWindow)
    (hurl : w.m_subscriptionUrl ≠ "") :
    (w.updateSubscriptionConfig qt).m_currentReply = some w.nextReply ∧
      (w.updateSubscriptionConfig qt).configFile = w.configFile := by
  unfold updateSubscriptionConfig
  cases hcur : w.m_currentReply <;> simp [hurl, updateConfigStatus, setStatusLabel]

/-- The config file after the accepting path when the file opens for writing:
exactly the bytes `file.write` stored, whatever the file held before. -/
theorem onConfigDownloadFinished_valid_file (qt : QtLib) (env : Env) (w : MainWindow)
    (reply : Nat)
    (hcur : w.m_currentReply = some reply)
    (herr : env.replyError reply = NetworkError.NoError)
    (hne : env.replyReadAll reply ≠ [])
    (hparse : (qt.fromJson (env.replyReadAll reply)).noError = true)
    (hobj : (qt.fromJson (env.replyReadAll reply)).isObject = true)
    (hkey : (qt.fromJson (env.replyReadAll reply)).contains "inbounds" = true ∨
      (qt.fromJson (env.replyReadAll reply)).contains "outbounds" = true)
    (hopen : env.openWriteOnly = true) :
    (w.onConfigDownloadFinished qt env).configFile =
      some ((env.replyReadAll reply).take env.written) := by
  rw [onConfigDownloadFinished_valid qt env w reply hcur herr hne hparse hobj hkey,
    saveToFile_opened qt env _ _ hopen]
  simp only [dropReply, deleteLater]
  rw [(changeSelectedConfig_frame qt env _).1]
  simp [updateConfigStatus, setStatusLabel, setPreview]

/-- A rejected body leaves the log of file operations as it was. -/
theorem rejected_body_keeps_fileOps (qt : QtLib) (env : Env)
    (w : MainWindow) (reply : Nat)
    (hcur : w.m_currentReply = some reply)
    (herr : env.replyError reply = NetworkError.NoError)
    (hinvalid : env.replyReadAll reply = [] ∨
      (qt.fromJson (env.replyReadAll reply)).noError = false ∨
      (qt.fromJson (env.replyReadAll reply)).isObject = false ∨
      ((qt.fromJson (env.replyReadAll reply)).contains "inbounds" = false ∧
        (qt.fromJson (env.replyReadAll reply)).contains "outbounds" = false)) :
    (w.onConfigDownloadFinished qt env).fileOps = w.fileOps := by
  unfold onConfigDownloadFinished
  simp only [hcur, herr]
  by_cases hne : env.replyReadAll reply = []
  · simp [hne, dropReply, deleteLater, updateConfigStatus, setStatusLabel, setPreview]
  · by_cases hp : (qt.fromJson (env.replyReadAll reply)).noError = false
    · simp [hne, hp, dropReply, deleteLater, updateConfigStatus, setStatusLabel, setPreview]
    · by_cases ho : (qt.fromJson (env.replyReadAll reply)).isObject = false
      · simp [hne, hp, ho, dropReply, deleteLater, updateConfigStatus, setStatusLabel,
          setPreview]
      · rcases hinvalid with h | h | h | ⟨h1, h2⟩
        · exact absurd h hne
        · exact absurd h hp
        · exact absurd h ho
        · simp [hne, hp, ho, h1, h2, dropReply, deleteLater, updateConfigStatus,
            setStatusLabel, setPreview]

/-- C1 (no write on invalid): when the current reply completed without error and
its body is empty, fails to parse, is not an object, or has neither `inbounds`
nor `outbounds`, `onConfigDownloadFinished` leaves the config file as it was,
whatever it held, and performs no operation on it. -/
theorem onConfigDownloadFinished_invalid_keeps_file (qt : QtLib) (env : Env) (w : MainWindow)
    (reply : Nat) (B : QByteArray)
    (hcur : w.m_currentReply = some reply)
    (herr : env.replyError reply = NetworkError.NoError)
    (hbody : env.replyReadAll reply = B)
    (hinvalid : B = [] ∨ (qt.fromJson B).noError = false ∨ (qt.fromJson B).isObject = false ∨
      ((qt.fromJson B).contains "inbounds" = false ∧
        (qt.fromJson B).contains "outbounds" = false)) :
    (w.onConfigDownloadFinished qt env).configFile = w.configFile ∧
      (w.onConfigDownloadFinished qt env).fileOps = w.fileOps := by
  subst hbody
  unfold onConfigDownloadFinished
  simp only [hcur, herr]
  rcases hinvalid with h | h | h | ⟨h1, h2⟩
  · simp [h, dropReply, deleteLater, updateConfigStatus, setStatusLabel, setPreview]
  · by_cases hne : env.replyReadAll reply = []
    · simp [hne, dropReply, deleteLater, updateConfigStatus, setStatusLabel, setPreview]
    · simp [hne, h, dropReply, deleteLater, updateConfigStatus, setStatusLabel, setPreview]
  · by_cases hne : env.replyReadAll reply = []
    · simp [hne, dropReply, deleteLater, updateConfigStatus, setStatusLabel, setPreview]
    · by_cases hp : (qt.fromJson (env.replyReadAll reply)).noError = false
      · simp [hne, hp, dropReply, deleteLater, updateConfigStatus, setStatusLabel, setPreview]
      · simp [hne, hp, h, dropReply, deleteLater, updateConfigStatus, setStatusLabel, setPreview]
  · by_cases hne : env.replyReadAll reply = []
    · simp [hne, dropReply, deleteLater, updateConfigStatus, setStatusLabel, setPreview]
    · by_cases hp : (qt.fromJson (env.replyReadAll reply)).noError = false
      · simp [hne, hp, dropReply, deleteLater, updateConfigStatus, setStatusLabel, setPreview]
      · by_cases ho : (qt.fromJson (env.replyReadAll reply)).isObject = false
        · simp [hne, hp, ho, dropReply, deleteLater, updateConfigStatus, setStatusLabel,
            setPreview]
        · simp [hne, hp, ho, h1, h2, dropReply, deleteLater, updateConfigStatus,
            setStatusLabel, setPreview]

/-- Witness for C1: the reply carries `{"foo":"bar"}`, which has neither required
key, while the config file holds `{"inbounds":[]}`; the file is untouched. -/
theorem onConfigDownloadFinished_invalid_keeps_file_witness :
    ((Sample.window (some Sample.inboundsDoc)).onConfigDownloadFinished Sample.qt
        (Sample.env Sample.fooDoc ProcessState.Running true 100)).configFile
      = some Sample.inboundsDoc ∧
    ((Sample.window (some Sample.inboundsDoc)).onConfigDownloadFinished Sample.qt
        (Sample.env Sample.fooDoc ProcessState.Running true 100)).fileOps
      = (Sample.window (some Sample.inboundsDoc)).fileOps :=
  onConfigDownloadFinished_invalid_keeps_file Sample.qt
    (Sample.env Sample.fooDoc ProcessState.Running true 100)
    (Sample.window (some Sample.inboundsDoc)) 0 Sample.fooDoc
    (by decide) (by decide) (by decide)
    (Or.inr (Or.inr (Or.inr ⟨by decide, by decide⟩)))

/-- C2 (validation order and acceptance): for the current reply completed without
error, `onConfigDownloadFinished` treats the body exactly as the spec's
`validate` classifies it, in the order Empty, Malformed (the parser's message is
put into the preview), NotAnObject, MissingRequiredSections, Valid (the indented
rendering is shown and the file is opened for writing); and the body is accepted,
that is the handler goes on to the config file, iff it is non-empty, parses, is
an object and has `inbounds` or `outbounds`. -/
theorem onConfigDownloadFinished_refines_validate (qt : QtLib) (env : Env) (w : MainWindow)
    (reply : Nat)
    (hcur : w.m_currentReply = some reply)
    (herr : env.replyError reply = NetworkError.NoError) :
    (match validate qt (env.replyReadAll reply) with
      | Validation.invalid ValidationError.Empty =>
        w.onConfigDownloadFinished qt env =
          ((w.updateConfigStatus "Error: Empty config received").setPreview
            "Error: Empty config received from subscription URL").dropReply reply
      | Validation.invalid (ValidationError.Malformed parserMessage) =>
        w.onConfigDownloadFinished qt env =
          ((w.updateConfigStatus "Error: Downloaded config is not valid JSON").setPreview
            (qt.arg
              (qt.arg "Error: Invalid JSON downloaded.\nParse error: %1\n\nRaw content:\n%2"
                parserMessage)
              (qt.fromUtf8 (env.replyReadAll reply)))).dropReply reply
      | Validation.invalid ValidationError.NotAnObject =>
        w.onConfigDownloadFinished qt env =
          ((w.updateConfigStatus "Error: Downloaded config is not a JSON object").setPreview
            "Error: Downloaded config is not a valid JSON object").dropReply reply
      | Validation.invalid ValidationError.MissingRequiredSections =>
        w.onConfigDownloadFinished qt env =
          ((w.updateConfigStatus "Error: Downloaded config missing required sections").setPreview
            "Error: Downloaded configuration is missing required 'inbounds' or 'outbounds' sections.\nThis doesn't appear to be a valid sing-box configuration.").dropReply
            reply
      | Validation.valid rendering =>
        ∃ ui ops,
          (w.onConfigDownloadFinished qt env).uiLog =
            w.uiLog ++ UiCall.configPreviewEdit_setPlainText rendering :: ui ∧
          (w.onConfigDownloadFinished qt env).fileOps =
            w.fileOps ++ FileOp.openWriteOnly env.openWriteOnly :: ops) ∧
    ((w.onConfigDownloadFinished qt env).fileOps ≠ w.fileOps ↔
      (env.replyReadAll reply ≠ [] ∧
        (qt.fromJson (env.replyReadAll reply)).noError = true ∧
        (qt.fromJson (env.replyReadAll reply)).isObject = true ∧
        ((qt.fromJson (env.replyReadAll reply)).contains "inbounds" = true ∨
          (qt.fromJson (env.replyReadAll reply)).contains "outbounds" = true))) := by
  unfold onConfigDownloadFinished validate
  simp only [hcur, herr]
  by_cases hne : env.replyReadAll reply = []
  · simp [hne, dropReply, deleteLater, updateConfigStatus, setStatusLabel, setPreview]
  · by_cases hp : (qt.fromJson (env.replyReadAll reply)).noError = false
    · simp [hne, hp, dropReply, deleteLater, updateConfigStatus, setStatusLabel, setPreview]
    · by_cases ho : (qt.fromJson (env.replyReadAll reply)).isObject = false
      · simp [hne, hp, ho, dropReply, deleteLater, updateConfigStatus, setStatusLabel,
          setPreview]
      · by_cases hk : (qt.fromJson (env.replyReadAll reply)).contains "inbounds" = false ∧
            (qt.fromJson (env.replyReadAll reply)).contains "outbounds" = false
        · simp [hne, hp, ho, hk, dropReply, deleteLater, updateConfigStatus, setStatusLabel,
            setPreview]
        · obtain ⟨⟨ui, hui⟩, ⟨ops, hops⟩⟩ := saveToFile_logs qt env
            (w.setPreview (qt.fromJson (env.replyReadAll reply)).toJsonIndented)
            (env.replyReadAll reply)
          have hk2 : (qt.fromJson (env.replyReadAll reply)).contains "inbounds" = true ∨
              (qt.fromJson (env.replyReadAll reply)).contains "outbounds" = true := by
            by_contra hcon
            apply hk
            constructor
            · cases hin : (qt.fromJson (env.replyReadAll reply)).contains "inbounds"
              · rfl
              · exact absurd (Or.inl hin) hcon
            · cases hout : (qt.fromJson (env.replyReadAll reply)).contains "outbounds"
              · rfl
              · exact absurd (Or.inr hout) hcon
          simp only [hne, hp, ho, hk, if_false, not_false_eq_true, ne_eq, true_and]
          refine ⟨⟨ui, ops, ?_, ?_⟩, ?_⟩
          · simp only [dropReply, deleteLater, hui]
            simp [setPreview]
          · simp only [dropReply, deleteLater, hops]
            simp [setPreview]
          · simp only [dropReply, deleteLater, hops]
            simp [setPreview, hk2]

/-- Witness for C2: the reply carries `not json`; the spec's `validate` says
Malformed with the parser's message, and the handler reports exactly that. -/
theorem onConfigDownloadFinished_refines_validate_witness :
    validate Sample.qt Sample.notJson =
      Validation.invalid (ValidationError.Malformed "illegal value") ∧
    (Sample.window none).onConfigDownloadFinished Sample.qt
        (Sample.env Sample.notJson ProcessState.Running true 100) =
      (((Sample.window none).updateConfigStatus
          "Error: Downloaded config is not valid JSON").setPreview
        "Error: Invalid JSON downloaded.\nParse error: illegal value\n\nRaw content:\nnot json").dropReply
        0 :=
  ⟨by decide,
    (onConfigDownloadFinished_refines_validate Sample.qt
      (Sample.env Sample.notJson ProcessState.Running true 100) (Sample.window none) 0
      (by decide) (by decide)).1⟩

/-- C3 (restart only if running): in a reachable window whose current reply
completed with a valid document that was persisted (the file opened, `write`
stored every byte, and the file reads back), `onConfigDownloadFinished` sets the
process manager's config path to the subscription file path and then issues
Stop followed by Start when the process is Running, and issues neither Start nor
Stop in any other process state. -/
theorem onConfigDownloadFinished_restart_only_if_running (qt : QtLib) (env : Env)
    (w : MainWindow) (reply : Nat)
    (hreach : Reachable qt w)
    (hcur : w.m_currentReply = some reply)
    (herr : env.replyError reply = NetworkError.NoError)
    (hne : env.replyReadAll reply ≠ [])
    (hparse : (qt.fromJson (env.replyReadAll reply)).noError = true)
    (hobj : (qt.fromJson (env.replyReadAll reply)).isObject = true)
    (hkey : (qt.fromJson (env.replyReadAll reply)).contains "inbounds" = true ∨
      (qt.fromJson (env.replyReadAll reply)).contains "outbounds" = true)
    (hopen : env.openWriteOnly = true)
    (hfull : (env.replyReadAll reply).length ≤ env.written)
    (hread : env.openReadOnly = true) :
    (w.onConfigDownloadFinished qt env).proxyCalls =
      w.proxyCalls ++ ProxyCall.setConfigFilePath w.m_configFilePath ::
        (if env.proxyProcessState = ProcessState.Running
          then [ProxyCall.stopProxy, ProxyCall.startProxy] else []) := by
  have hurl : w.m_subscriptionUrl ≠ "" := hreach.hasUrlWhenFetching (by simp [hcur])
  rw [onConfigDownloadFinished_valid qt env w reply hcur herr hne hparse hobj hkey,
    saveToFile_opened qt env _ _ hopen,
    changeSelectedConfig_subscription qt env _ (env.replyReadAll reply)
      (by simpa [updateConfigStatus, setStatusLabel, setPreview] using hurl)
      (by simp [updateConfigStatus, setStatusLabel, setPreview, List.take_of_length_le hfull])
      hread hne hparse hobj hkey]
  unfold restartIfRunning
  split_ifs <;>
    simp [dropReply, deleteLater, setStatusLabel, setConfigFilePath, setPreview,
      updateConfigStatus, stopProxy, startProxy]

/-- Witness for C3: the window after start-up with a stored URL, the reply
carrying `{"inbounds":[]}`, the process Running. -/
theorem onConfigDownloadFinished_restart_only_if_running_witness :
    ((Sample.window none).onConfigDownloadFinished Sample.qt
        (Sample.env Sample.inboundsDoc ProcessState.Running true 15)).proxyCalls =
      [ProxyCall.setConfigFilePath "/data/subscription_config.json",
        ProxyCall.stopProxy, ProxyCall.startProxy] :=
  onConfigDownloadFinished_restart_only_if_running Sample.qt
    (Sample.env Sample.inboundsDoc ProcessState.Running true 15) (Sample.window none) 0
    (Reachable.construct _ _ _ _) (by decide) (by decide) (by decide) (by decide) (by decide)
    (Or.inl (by decide)) (by decide) (by decide) (by decide)

/-- Counterexample to C4 as stated: reply `0` was replaced by reply `1`, which
is still outstanding with no error and no data. The completion of the replaced
reply `0` is not a no-op: the handler runs on the current reply `1`, reports an
empty config and drops reply `1`; likewise the error event of reply `0` reports a
download error and drops reply `1`. -/
theorem replaced_reply_event_is_acted_upon :
    Reachable Sample.qt Sample.replacedWindow ∧
    Sample.replacedWindow.m_currentReply = some 1 ∧
    Sample.replacedWindow.netCalls =
      [NetCall.get 0 "https://example.com/sub" "qsing-box/1.0.0", NetCall.abort 0,
        NetCall.deleteLater 0, NetCall.get 1 "https://example.com/sub" "qsing-box/1.0.0"] ∧
    (step Sample.qt Sample.staleEnv
        Sample.replacedWindow (Event.finished 0)).m_currentReply = none ∧
    (step Sample.qt Sample.staleEnv
        Sample.replacedWindow (Event.finished 0)).configStatusLabel =
      "Error: Empty config received" ∧
    Sample.replacedWindow.configStatusLabel = "Downloading config from subscription..." ∧
    (step Sample.qt Sample.staleEnv
        Sample.replacedWindow
        (Event.errorOccurred 0 NetworkError.OperationCanceledError)).m_currentReply = none ∧
    (step Sample.qt Sample.staleEnv
        Sample.replacedWindow
        (Event.errorOccurred 0 NetworkError.OperationCanceledError)).configStatusLabel =
      "Error downloading config: Unknown error" :=
  ⟨Reachable.step _ _ (Reachable.construct _ _ _ _), by decide, by decide, by decide,
    by decide, by decide, by decide, by decide⟩

/-- C4 as amended: a completion or error event of any reply that arrives while
no reply is current (in particular an event of a replaced reply arriving after
the latest reply's completion or error was handled) is a no-op: the whole
window, with the current reply, the config file, the status and the requests
to the process manager, is unchanged. -/
theorem reply_event_without_current_is_noop (qt : QtLib) (env : Env) (w : MainWindow)
    (reply : Nat) (error : NetworkError)
    (hnone : w.m_currentReply = none) :
    step qt env w (Event.finished reply) = w ∧
      step qt env w (Event.errorOccurred reply error) = w := by
  constructor
  · simp only [step]
    split_ifs
    · unfold onConfigDownloadFinished
      simp [hnone]
    · rfl
  · simp only [step]
    split_ifs
    · unfold onConfigDownloadError
      simp [hnone]
    · rfl

/-- Witness for C4 as amended: after reply `0` was replaced by reply `1` and the
completion of reply `1` was handled, the events of reply `0` change nothing. -/
theorem reply_event_without_current_is_noop_witness :
    Sample.settledWindow.m_currentReply = none ∧
    (step Sample.qt (Sample.env Sample.fooDoc ProcessState.Running true 15)
        Sample.settledWindow (Event.finished 0) = Sample.settledWindow ∧
      step Sample.qt (Sample.env Sample.fooDoc ProcessState.Running true 15)
        Sample.settledWindow (Event.errorOccurred 0 NetworkError.OperationCanceledError) =
        Sample.settledWindow) :=
  ⟨by decide,
    reply_event_without_current_is_noop Sample.qt
      (Sample.env Sample.fooDoc ProcessState.Running true 15) Sample.settledWindow 0
      NetworkError.OperationCanceledError (by decide)⟩

/-- The download handlers never look at which reply sent the signal: the
events of any two existing replies have the same effect. -/
theorem reply_event_ignores_sender (qt : QtLib) (env : Env) (w : MainWindow)
    (r r' : Nat) (error : NetworkError) (hr : r < w.nextReply) (hr' : r' < w.nextReply) :
    step qt env w (Event.finished r) = step qt env w (Event.finished r') ∧
      step qt env w (Event.errorOccurred r error) =
        step qt env w (Event.errorOccurred r' error) := by
  simp [step, hr, hr']

/-- Counterexample to C5 as stated: at start-up the URL is set, the config file
exists but is empty (so it fails validation), the local catalog has two entries
and the process is Running. The local entry is not selected: the status is
`Empty config file`, no config path is set, and the process is stopped although
a local configuration is available. -/
theorem startup_invalid_file_blocks_local_catalog :
    (Sample.catalogEnv ProcessState.Running).configCount = 2 ∧
    (MainWindow.construct Sample.qt (Sample.catalogEnv ProcessState.Running) "/data"
        "https://example.com/sub" (some [])).configStatusLabel = "Status: Empty config file" ∧
    (MainWindow.construct Sample.qt (Sample.catalogEnv ProcessState.Running) "/data"
        "https://example.com/sub" (some [])).proxyCalls = [ProxyCall.stopProxy] :=
  ⟨by decide, by decide, by decide⟩

/-- C5 as amended: `changeSelectedConfig` selects the subscription document
(sets its path, restarts a running process) exactly when the subscription URL is
non-empty, the file exists, can be read and its content passes the checks; when
the URL is non-empty and the file exists but cannot be read or fails a check it
selects nothing and stops a running process; only when the URL is empty or the
file does not exist does it fall back to the local catalog, selecting the
current entry when the catalog is non-empty and otherwise reporting
`No configuration available` and stopping a running process. -/
theorem changeSelectedConfig_precedence (qt : QtLib) (env : Env) (w : MainWindow) :
    (w.changeSelectedConfig qt env).proxyCalls =
      w.proxyCalls ++
        (if w.m_subscriptionUrl ≠ "" ∧ w.configFile.isSome = true then
          if env.openReadOnly = true ∧ DiskConfigAccepted qt (w.configFile.getD []) then
            ProxyCall.setConfigFilePath w.m_configFilePath :: restartCalls env
          else stopCalls env
        else if env.configCount = 0 then stopCalls env
        else ProxyCall.setConfigFilePath env.configFilePath :: restartCalls env) ∧
    (w.changeSelectedConfig qt env).configStatusLabel =
      (if w.m_subscriptionUrl ≠ "" ∧ w.configFile.isSome = true then
        if env.openReadOnly = true then
          if w.configFile.getD [] ≠ [] then
            if (qt.fromJson (w.configFile.getD [])).noError = true ∧
                (qt.fromJson (w.configFile.getD [])).isObject = true then
              if (qt.fromJson (w.configFile.getD [])).contains "inbounds" = true ∨
                  (qt.fromJson (w.configFile.getD [])).contains "outbounds" = true then
                "Status: Using subscription config"
              else "Status: Invalid config - missing inbounds/outbounds"
            else "Status: Invalid JSON config"
          else "Status: Empty config file"
        else "Status: Cannot read config file"
      else if env.configCount = 0 then "Status: No configuration available"
      else qt.arg "Status: Using local config: %1" env.configName) := by
  unfold changeSelectedConfig restartIfRunning stopIfRunning restartCalls stopCalls
    DiskConfigAccepted
  dsimp only
  split_ifs <;>
    simp_all [setStatusLabel, setPreview, setConfigFilePath, stopProxy, startProxy]

/-- Counterexample to C6 as stated: the file opens for writing but `file.write`
stores only five of the fifteen bytes of the valid document (the handler does
not look at the count `write` returns); the file then holds `{"inb`, not the
downloaded bytes. -/
theorem opened_file_may_not_hold_download :
    (Sample.env Sample.inboundsDoc ProcessState.NotRunning true 5).openWriteOnly = true ∧
    ((Sample.window (some Sample.outboundsDoc)).onConfigDownloadFinished Sample.qt
        (Sample.env Sample.inboundsDoc ProcessState.NotRunning true 5)).configFile =
      some [123, 34, 105, 110, 98] ∧
    ((Sample.window (some Sample.outboundsDoc)).onConfigDownloadFinished Sample.qt
        (Sample.env Sample.inboundsDoc ProcessState.NotRunning true 5)).configFile ≠
      some Sample.inboundsDoc :=
  ⟨by decide, by decide, by decide⟩

/-- C6 as amended: for a valid downloaded buffer `B`, when the config file opens
for writing and `file.write` stores every byte, the file afterwards holds `B`
byte for byte, whatever it held before (the raw bytes, a whole-file overwrite);
and fetching and handling the same `B` once more leaves the same bytes. -/
theorem onConfigDownloadFinished_writes_raw_bytes (qt : QtLib) (env env2 : Env)
    (w : MainWindow) (reply : Nat) (B : QByteArray)
    (hurl : w.m_subscriptionUrl ≠ "")
    (hcur : w.m_currentReply = some reply)
    (herr : env.replyError reply = NetworkError.NoError)
    (hbody : env.replyReadAll reply = B)
    (hne : B ≠ [])
    (hparse : (qt.fromJson B).noError = true)
    (hobj : (qt.fromJson B).isObject = true)
    (hkey : (qt.fromJson B).contains "inbounds" = true ∨
      (qt.fromJson B).contains "outbounds" = true)
    (hopen : env.openWriteOnly = true)
    (hfull : B.length ≤ env.written)
    (herr2 : env2.replyError w.nextReply = NetworkError.NoError)
    (hbody2 : env2.replyReadAll w.nextReply = B)
    (hopen2 : env2.openWriteOnly = true)
    (hfull2 : B.length ≤ env2.written) :
    (w.onConfigDownloadFinished qt env).configFile = some B ∧
    (((w.onConfigDownloadFinished qt env).updateSubscriptionConfig qt).onConfigDownloadFinished
        qt env2).configFile = (w.onConfigDownloadFinished qt env).configFile := by
  subst hbody
  have h1 : (w.onConfigDownloadFinished qt env).configFile = some (env.replyReadAll reply) := by
    rw [onConfigDownloadFinished_valid_file qt env w reply hcur herr hne hparse hobj hkey hopen,
      List.take_of_length_le hfull]
  have hnext : (w.onConfigDownloadFinished qt env).nextReply = w.nextReply := by
    rw [onConfigDownloadFinished_valid qt env w reply hcur herr hne hparse hobj hkey,
      saveToFile_opened qt env _ _ hopen]
    unfold changeSelectedConfig restartIfRunning stopIfRunning
    dsimp only
    split_ifs <;>
      simp [dropReply, deleteLater, setStatusLabel, setPreview, setConfigFilePath, stopProxy,
        startProxy, updateConfigStatus]
  have hurl1 : (w.onConfigDownloadFinished qt env).m_subscriptionUrl ≠ "" := by
    rw [onConfigDownloadFinished_valid qt env w reply hcur herr hne hparse hobj hkey,
      saveToFile_opened qt env _ _ hopen]
    simp only [dropReply, deleteLater]
    rw [(changeSelectedConfig_frame qt env _).2.2.1]
    simpa [updateConfigStatus, setStatusLabel, setPreview] using hurl
  refine ⟨h1, ?_⟩
  have hcur2 := (updateSubscriptionConfig_currentReply qt _ hurl1).1
  rw [hnext] at hcur2
  rw [onConfigDownloadFinished_valid_file qt env2 _ w.nextReply hcur2 herr2
      (by rw [hbody2]; exact hne) (by rw [hbody2]; exact hparse) (by rw [hbody2]; exact hobj)
      (by rw [hbody2]; exact hkey) hopen2,
    hbody2, List.take_of_length_le hfull2, h1]

/-- Witness for C6 as amended: the file held `{"outbounds":[]}`, the reply
carries `{"inbounds":[]}` and the write is complete, twice in a row. -/
theorem onConfigDownloadFinished_writes_raw_bytes_witness :
    ((Sample.window (some Sample.outboundsDoc)).onConfigDownloadFinished Sample.qt
        (Sample.env Sample.inboundsDoc ProcessState.Running true 15)).configFile =
      some Sample.inboundsDoc ∧
    ((((Sample.window (some Sample.outboundsDoc)).onConfigDownloadFinished Sample.qt
        (Sample.env Sample.inboundsDoc ProcessState.Running true 15)).updateSubscriptionConfig
        Sample.qt).onConfigDownloadFinished Sample.qt
        { Sample.env [] ProcessState.Running true 15 with
          replyReadAll := fun _ => Sample.inboundsDoc }).configFile =
      ((Sample.window (some Sample.outboundsDoc)).onConfigDownloadFinished Sample.qt
        (Sample.env Sample.inboundsDoc ProcessState.Running true 15)).configFile :=
  onConfigDownloadFinished_writes_raw_bytes Sample.qt
    (Sample.env Sample.inboundsDoc ProcessState.Running true 15)
    { Sample.env [] ProcessState.Running true 15 with
      replyReadAll := fun _ => Sample.inboundsDoc }
    (Sample.window (some Sample.outboundsDoc)) 0 Sample.inboundsDoc
    (by decide) (by decide) (by decide) (by decide) (by decide) (by decide) (by decide)
    (Or.inl (by decide)) (by decide) (by decide) (by decide) (by decide) (by decide) (by decide)

/-- C7, the code at a failing input: the reply carries `{"inbounds":[]}`, the
write succeeds in full and the process is NotRunning. The handler does set the
success status with the timestamp, but `changeSelectedConfig`, called right
after, writes to the same label: when the handler returns the status is
`Status: Using subscription config` and the timestamp is gone. -/
theorem success_status_is_overwritten :
    UiCall.configStatusLabel_setText
        "Config updated successfully. Last update: 2025-01-01 12:00:00" ∈
      ((Sample.window none).onConfigDownloadFinished Sample.qt
        (Sample.env Sample.inboundsDoc ProcessState.NotRunning true 15)).uiLog ∧
    ((Sample.window none).onConfigDownloadFinished Sample.qt
        (Sample.env Sample.inboundsDoc ProcessState.NotRunning true 15)).configStatusLabel =
      "Status: Using subscription config" ∧
    ((Sample.window none).onConfigDownloadFinished Sample.qt
        (Sample.env Sample.inboundsDoc ProcessState.NotRunning true 15)).configStatusLabel ≠
      "Config updated successfully. Last update: 2025-01-01 12:00:00" :=
  ⟨by decide, by decide, by decide⟩

/-- The status on return from the accepting path with a successful write is the
one `changeSelectedConfig` sets, for every document, clock and process state:
in a reachable window, with the written file reading back, it is
`Status: Using subscription config`. -/
theorem onConfigDownloadFinished_valid_status (qt : QtLib) (env : Env) (w : MainWindow)
    (reply : Nat)
    (hreach : Reachable qt w)
    (hcur : w.m_currentReply = some reply)
    (herr : env.replyError reply = NetworkError.NoError)
    (hne : env.replyReadAll reply ≠ [])
    (hparse : (qt.fromJson (env.replyReadAll reply)).noError = true)
    (hobj : (qt.fromJson (env.replyReadAll reply)).isObject = true)
    (hkey : (qt.fromJson (env.replyReadAll reply)).contains "inbounds" = true ∨
      (qt.fromJson (env.replyReadAll reply)).contains "outbounds" = true)
    (hopen : env.openWriteOnly = true)
    (hfull : (env.replyReadAll reply).length ≤ env.written)
    (hread : env.openReadOnly = true) :
    (w.onConfigDownloadFinished qt env).configStatusLabel =
      "Status: Using subscription config" := by
  have hurl : w.m_subscriptionUrl ≠ "" := hreach.hasUrlWhenFetching (by simp [hcur])
  rw [onConfigDownloadFinished_valid qt env w reply hcur herr hne hparse hobj hkey,
    saveToFile_opened qt env _ _ hopen,
    changeSelectedConfig_subscription qt env _ (env.replyReadAll reply)
      (by simpa [updateConfigStatus, setStatusLabel, setPreview] using hurl)
      (by simp [updateConfigStatus, setStatusLabel, setPreview, List.take_of_length_le hfull])
      hread hne hparse hobj hkey]
  unfold restartIfRunning
  split_ifs <;>
    simp [dropReply, deleteLater, setStatusLabel, setConfigFilePath, setPreview,
      updateConfigStatus, stopProxy, startProxy]

/-- Counterexample to C8 as stated: the file held the valid document
`{"outbounds":[]}`, the download is the valid document `{"inbounds":[]}`, the
file opens for writing and `file.write` then stores only five bytes. The file is
left half-written (`{"inb`), the previous content is lost, the success status was
set, and the status on return names no write failure. -/
theorem failed_write_leaves_file_half_written :
    ((Sample.window (some Sample.outboundsDoc)).onConfigDownloadFinished Sample.qt
        (Sample.env Sample.inboundsDoc ProcessState.NotRunning true 5)).configFile =
      some [123, 34, 105, 110, 98] ∧
    (Sample.window (some Sample.outboundsDoc)).configFile = some Sample.outboundsDoc ∧
    UiCall.configStatusLabel_setText
        "Config updated successfully. Last update: 2025-01-01 12:00:00" ∈
      ((Sample.window (some Sample.outboundsDoc)).onConfigDownloadFinished Sample.qt
        (Sample.env Sample.inboundsDoc ProcessState.NotRunning true 5)).uiLog ∧
    ((Sample.window (some Sample.outboundsDoc)).onConfigDownloadFinished Sample.qt
        (Sample.env Sample.inboundsDoc ProcessState.NotRunning true 5)).configStatusLabel =
      "Status: Invalid JSON config" :=
  ⟨by decide, by decide, by decide, by decide⟩

/-- C8 as amended: for a valid document, if the config file cannot be opened
for writing, the file still holds its previous content in full and the status
on return reports the failure (`Error: Failed to save config file`), not
success. -/
theorem onConfigDownloadFinished_open_failure_keeps_file (qt : QtLib) (env : Env)
    (w : MainWindow) (reply : Nat)
    (hcur : w.m_currentReply = some reply)
    (herr : env.replyError reply = NetworkError.NoError)
    (hne : env.replyReadAll reply ≠ [])
    (hparse : (qt.fromJson (env.replyReadAll reply)).noError = true)
    (hobj : (qt.fromJson (env.replyReadAll reply)).isObject = true)
    (hkey : (qt.fromJson (env.replyReadAll reply)).contains "inbounds" = true ∨
      (qt.fromJson (env.replyReadAll reply)).contains "outbounds" = true)
    (hopen : env.openWriteOnly = false) :
    (w.onConfigDownloadFinished qt env).configFile = w.configFile ∧
    (w.onConfigDownloadFinished qt env).configStatusLabel =
      "Error: Failed to save config file" ∧
    (w.onConfigDownloadFinished qt env).uiLog =
      w.uiLog ++
        [UiCall.configPreviewEdit_setPlainText
            (qt.fromJson (env.replyReadAll reply)).toJsonIndented,
          UiCall.configStatusLabel_setText "Error: Failed to save config file",
          UiCall.configPreviewEdit_setPlainText "Error: Failed to save config file"] := by
  rw [onConfigDownloadFinished_valid qt env w reply hcur herr hne hparse hobj hkey,
    saveToFile_not_opened qt env _ _ hopen]
  simp [dropReply, deleteLater, updateConfigStatus, setStatusLabel, setPreview]

/-- Witness for C8 as amended: the file held `{"outbounds":[]}`, the download is
`{"inbounds":[]}`, and the file cannot be opened for writing. -/
theorem onConfigDownloadFinished_open_failure_keeps_file_witness :
    ((Sample.window (some Sample.outboundsDoc)).onConfigDownloadFinished Sample.qt
        (Sample.env Sample.inboundsDoc ProcessState.Running false 0)).configFile =
      some Sample.outboundsDoc ∧
    ((Sample.window (some Sample.outboundsDoc)).onConfigDownloadFinished Sample.qt
        (Sample.env Sample.inboundsDoc ProcessState.Running false 0)).configStatusLabel =
      "Error: Failed to save config file" :=
  ⟨(onConfigDownloadFinished_open_failure_keeps_file Sample.qt
      (Sample.env Sample.inboundsDoc ProcessState.Running false 0)
      (Sample.window (some Sample.outboundsDoc)) 0
      (by decide) (by decide) (by decide) (by decide) (by decide) (Or.inl (by decide))
      (by decide)).1,
    (onConfigDownloadFinished_open_failure_keeps_file Sample.qt
      (Sample.env Sample.inboundsDoc ProcessState.Running false 0)
      (Sample.window (some Sample.outboundsDoc)) 0
      (by decide) (by decide) (by decide) (by decide) (by decide) (Or.inl (by decide))
      (by decide)).2.1⟩

/-- C9 (a rejected URL leaves the state untouched): when the text of the URL
field is empty after trimming, or is not a valid URL with scheme `http` or
`https`, `on_saveUrlButton_clicked` shows one warning and changes nothing else:
the subscription URL, the stored setting, the timer, the current reply, the
network calls and the config file are as before. -/
theorem on_saveUrlButton_clicked_rejected (qt : QtLib) (w : MainWindow)
    (hbad : qt.trimmed w.subscriptionUrlEdit = "" ∨
      ¬ (qt.urlIsValid (qt.trimmed w.subscriptionUrlEdit) = true ∧
        (qt.urlScheme (qt.trimmed w.subscriptionUrlEdit) = "http" ∨
          qt.urlScheme (qt.trimmed w.subscriptionUrlEdit) = "https"))) :
    w.on_saveUrlButton_clicked qt =
      { w with dialogs := w.dialogs ++ [Dialog.warning "Warning"
        (if qt.trimmed w.subscriptionUrlEdit = "" then "Please enter a subscription URL."
          else "Please enter a valid URL.")] } := by
  unfold on_saveUrlButton_clicked
  by_cases h1 : qt.trimmed w.subscriptionUrlEdit = ""
  · simp [h1, showDialog]
  · have h2 : ¬ (qt.urlIsValid (qt.trimmed w.subscriptionUrlEdit) = true ∧
        (qt.urlScheme (qt.trimmed w.subscriptionUrlEdit) = "http" ∨
          qt.urlScheme (qt.trimmed w.subscriptionUrlEdit) = "https")) := by
      rcases hbad with h | h
      · exact absurd h h1
      · exact h
    have hv : (w.isValidUrl qt (qt.trimmed w.subscriptionUrlEdit)) = (false, w) := by
      unfold isValidUrl
      have : (qt.urlIsValid (qt.trimmed w.subscriptionUrlEdit) &&
          (qt.urlScheme (qt.trimmed w.subscriptionUrlEdit) == "http" ||
            qt.urlScheme (qt.trimmed w.subscriptionUrlEdit) == "https")) = false := by
        simpa using h2
      simp [this]
    simp [h1, hv, showDialog]

/-- Witness for C9: the URL field holds only blanks, and the URL field holds a
URL whose scheme is `ftp`. -/
theorem on_saveUrlButton_clicked_rejected_witness :
    (Sample.editedWindow "   ").on_saveUrlButton_clicked Sample.qt =
      { Sample.editedWindow "   " with
        dialogs := [Dialog.warning "Warning" "Please enter a subscription URL."] } ∧
    (Sample.editedWindow " ftp://example.com/sub ").on_saveUrlButton_clicked Sample.qt =
      { Sample.editedWindow " ftp://example.com/sub " with
        dialogs := [Dialog.warning "Warning" "Please enter a valid URL."] } :=
  ⟨on_saveUrlButton_clicked_rejected Sample.qt (Sample.editedWindow "   ")
      (Or.inl (by decide)),
    on_saveUrlButton_clicked_rejected Sample.qt (Sample.editedWindow " ftp://example.com/sub ")
      (Or.inr (by decide))⟩

/-- C10 (no reconciliation on a non-success outcome): for the current reply,
(1) after `onConfigDownloadError` followed by `onConfigDownloadFinished`, for
every error, and (2) after `onConfigDownloadFinished` alone when the reply
reports an error, or its body fails validation, or the config file cannot
be opened for writing: no request at all was sent to the process manager (no
Start, no Stop, no change of its config path) and no reply is current. -/
theorem failure_outcomes_do_not_reconcile (qt : QtLib) (env env2 : Env) (w : MainWindow)
    (reply : Nat) (error : NetworkError)
    (hcur : w.m_currentReply = some reply)
    (hfail : env.replyError reply ≠ NetworkError.NoError ∨
      (env.replyReadAll reply = [] ∨
        (qt.fromJson (env.replyReadAll reply)).noError = false ∨
        (qt.fromJson (env.replyReadAll reply)).isObject = false ∨
        ((qt.fromJson (env.replyReadAll reply)).contains "inbounds" = false ∧
          (qt.fromJson (env.replyReadAll reply)).contains "outbounds" = false)) ∨
      env.openWriteOnly = false) :
    (((w.onConfigDownloadError qt env error).onConfigDownloadFinished qt env2).proxyCalls =
        w.proxyCalls ∧
      ((w.onConfigDownloadError qt env error).onConfigDownloadFinished qt env2).m_currentReply =
        none) ∧
    ((w.onConfigDownloadFinished qt env).proxyCalls = w.proxyCalls ∧
      (w.onConfigDownloadFinished qt env).m_currentReply = none) := by
  refine ⟨⟨?_, onConfigDownloadFinished_currentReply qt env2 _⟩,
    ⟨?_, onConfigDownloadFinished_currentReply qt env _⟩⟩
  · have hnone := onConfigDownloadError_currentReply qt env w error
    have hstep : (w.onConfigDownloadError qt env error).onConfigDownloadFinished qt env2 =
        w.onConfigDownloadError qt env error := by
      generalize w.onConfigDownloadError qt env error = v at hnone
      unfold onConfigDownloadFinished
      simp [hnone]
    rw [hstep]
    unfold onConfigDownloadError
    simp only [hcur]
    split_ifs <;> simp [dropReply, deleteLater, updateConfigStatus, setStatusLabel, setPreview]
  · by_cases herr : env.replyError reply = NetworkError.NoError
    · by_cases hne : env.replyReadAll reply = []
      · unfold onConfigDownloadFinished
        simp [hcur, herr, hne, dropReply, deleteLater, updateConfigStatus, setStatusLabel,
          setPreview]
      · by_cases hp : (qt.fromJson (env.replyReadAll reply)).noError = false
        · unfold onConfigDownloadFinished
          simp [hcur, herr, hne, hp, dropReply, deleteLater, updateConfigStatus,
            setStatusLabel, setPreview]
        · by_cases ho : (qt.fromJson (env.replyReadAll reply)).isObject = false
          · unfold onConfigDownloadFinished
            simp [hcur, herr, hne, hp, ho, dropReply, deleteLater, updateConfigStatus,
              setStatusLabel, setPreview]
          · by_cases hk : (qt.fromJson (env.replyReadAll reply)).contains "inbounds" = false ∧
                (qt.fromJson (env.replyReadAll reply)).contains "outbounds" = false
            · unfold onConfigDownloadFinished
              simp [hcur, herr, hne, hp, ho, hk, dropReply, deleteLater, updateConfigStatus,
                setStatusLabel, setPreview]
            · have hopen : env.openWriteOnly = false := by
                rcases hfail with h | h | h
                · exact absurd herr h
                · rcases h with h | h | h | h
                  · exact absurd h hne
                  · exact absurd h hp
                  · exact absurd h ho
                  · exact absurd h hk
                · exact h
              have hk2 : (qt.fromJson (env.replyReadAll reply)).contains "inbounds" = true ∨
                  (qt.fromJson (env.replyReadAll reply)).contains "outbounds" = true := by
                by_contra hcon
                apply hk
                constructor
                · cases hin : (qt.fromJson (env.replyReadAll reply)).contains "inbounds"
                  · rfl
                  · exact absurd (Or.inl hin) hcon
                · cases hout : (qt.fromJson (env.replyReadAll reply)).contains "outbounds"
                  · rfl
                  · exact absurd (Or.inr hout) hcon
              rw [onConfigDownloadFinished_valid qt env w reply hcur herr hne
                (by simpa using hp) (by simpa using ho) hk2,
                saveToFile_not_opened qt env _ _ hopen]
              simp [dropReply, deleteLater, updateConfigStatus, setStatusLabel, setPreview]
    · unfold onConfigDownloadFinished
      simp [hcur, herr, dropReply, deleteLater]

/-- Witness for C10: the process is Running and the reply carries `not json`;
the error handler is given a refused connection. -/
theorem failure_outcomes_do_not_reconcile_witness :
    (((Sample.window none).onConfigDownloadError Sample.qt
          (Sample.env Sample.notJson ProcessState.Running true 15)
          (NetworkError.Other 1)).onConfigDownloadFinished Sample.qt
        (Sample.env Sample.notJson ProcessState.Running true 15)).proxyCalls = [] ∧
    ((Sample.window none).onConfigDownloadFinished Sample.qt
        (Sample.env Sample.notJson ProcessState.Running true 15)).proxyCalls = [] ∧
    ((Sample.window none).onConfigDownloadFinished Sample.qt
        (Sample.env Sample.notJson ProcessState.Running true 15)).m_currentReply = none :=
  ⟨(failure_outcomes_do_not_reconcile Sample.qt
      (Sample.env Sample.notJson ProcessState.Running true 15)
      (Sample.env Sample.notJson ProcessState.Running true 15) (Sample.window none) 0
      (NetworkError.Other 1) (by decide) (Or.inr (Or.inl (Or.inr (Or.inl (by decide)))))).1.1,
    (failure_outcomes_do_not_reconcile Sample.qt
      (Sample.env Sample.notJson ProcessState.Running true 15)
      (Sample.env Sample.notJson ProcessState.Running true 15) (Sample.window none) 0
      (NetworkError.Other 1) (by decide) (Or.inr (Or.inl (Or.inr (Or.inl (by decide)))))).2⟩

/-- The two paths of `onConfigDownloadError` for the current reply: the error
is handled as a TLS error exactly when its kind is `SslHandshakeFailedError` or
its message contains `tls initialization failed` or `ssl` ignoring case; then
the TLS template is filled with the message and with the diagnostics of
`checkOpenSSLStatus`, by two successive `arg` calls; every other error gets the
generic template filled with the message. Either way the reply is released. -/
theorem onConfigDownloadError_paths (qt : QtLib) (env : Env) (w : MainWindow) (reply : Nat)
    (error : NetworkError) (hcur : w.m_currentReply = some reply) :
    w.onConfigDownloadError qt env error =
      if error = NetworkError.SslHandshakeFailedError ∨
          qt.containsCI (env.replyErrorString reply) "tls initialization failed" = true ∨
          qt.containsCI (env.replyErrorString reply) "ssl" = true then
        ((w.updateConfigStatus
            (qt.arg (qt.arg "TLS Error: %1. %2" (env.replyErrorString reply))
              (checkOpenSSLStatus qt env))).setPreview
          (qt.arg (qt.arg "TLS Error: %1\n\nTroubleshooting:\n%2" (env.replyErrorString reply))
            (checkOpenSSLStatus qt env))).dropReply reply
      else
        ((w.updateConfigStatus
            (qt.arg "Error downloading config: %1" (env.replyErrorString reply))).setPreview
          (qt.arg "Download Error: %1" (env.replyErrorString reply))).dropReply reply := by
  unfold onConfigDownloadError
  simp only [hcur]
  split_ifs <;> rfl

/-- The sample `arg` reproduces the chaining example of the Qt documentation. -/
theorem sample_arg_chaining :
    Sample.arg (Sample.arg "%1 %2" "%1") "Hello" = "Hello %2" := by
  decide

/-- C11, the code at a failing input: reply `0` fails with code 203 and the
message `Error transferring https://ssl.example.com/sub?token=a%1Fb - server
replied: Not Found`. The message contains `ssl`, so the error is handled as a
TLS error. The first `arg` call puts the message into the template; the second
one replaces the lowest-numbered place marker left, which is the `%1` inside the
message, not the template's `%2`. The status then holds the diagnostics in the
middle of the message: it contains the diagnostics but not the transport's
message, and still ends in `%2`. -/
theorem tls_status_loses_error_string :
    Sample.containsCI Sample.notFoundMessage "ssl" = true ∧
    ((Sample.window none).onConfigDownloadError Sample.qt Sample.notFoundEnv
        (NetworkError.Other 203)).configStatusLabel =
      "TLS Error: Error transferring https://ssl.example.com/sub?token=a" ++
        checkOpenSSLStatus Sample.qt Sample.notFoundEnv ++
        "Fb - server replied: Not Found. %2" ∧
    Sample.occursIn Sample.notFoundMessage.data
      ((Sample.window none).onConfigDownloadError Sample.qt Sample.notFoundEnv
        (NetworkError.Other 203)).configStatusLabel.data = false ∧
    Sample.occursIn (checkOpenSSLStatus Sample.qt Sample.notFoundEnv).data
      ((Sample.window none).onConfigDownloadError Sample.qt Sample.notFoundEnv
        (NetworkError.Other 203)).configStatusLabel.data = true :=
  ⟨by decide, by decide, by decide, by decide⟩

/-- `changeSelectedConfig` does not touch the stored setting. -/
theorem changeSelectedConfig_settingsUrl (qt : QtLib) (env : Env) (w : MainWindow) :
    (w.changeSelectedConfig qt env).settingsUrl = w.settingsUrl := by
  unfold changeSelectedConfig restartIfRunning stopIfRunning
  dsimp only
  split_ifs <;>
    simp [setStatusLabel, setPreview, setConfigFilePath, stopProxy, startProxy]

/-- `updateSubscriptionConfig` does not touch the stored setting. -/
theorem updateSubscriptionConfig_settingsUrl (qt : QtLib) (w : MainWindow) :
    (w.updateSubscriptionConfig qt).settingsUrl = w.settingsUrl := by
  unfold updateSubscriptionConfig
  split_ifs
  · rfl
  · cases w.m_currentReply <;> simp [updateConfigStatus, setStatusLabel]

/-- The save block touches neither the subscription URL nor the stored
setting. -/
theorem saveToFile_url (qt : QtLib) (env : Env) (w : MainWindow) (configData : QByteArray) :
    (w.saveToFile qt env configData).m_subscriptionUrl = w.m_subscriptionUrl ∧
      (w.saveToFile qt env configData).settingsUrl = w.settingsUrl := by
  unfold saveToFile
  dsimp only
  split_ifs
  · rw [(changeSelectedConfig_frame qt env _).2.2.1, changeSelectedConfig_settingsUrl]
    simp [updateConfigStatus, setStatusLabel]
  · simp [updateConfigStatus, setStatusLabel, setPreview]

/-- A fetch completion touches neither the subscription URL nor the stored
setting. -/
theorem onConfigDownloadFinished_url (qt : QtLib) (env : Env) (w : MainWindow) :
    (w.onConfigDownloadFinished qt env).m_subscriptionUrl = w.m_subscriptionUrl ∧
      (w.onConfigDownloadFinished qt env).settingsUrl = w.settingsUrl := by
  unfold onConfigDownloadFinished
  cases w.m_currentReply with
  | none => exact ⟨rfl, rfl⟩
  | some reply =>
    dsimp only
    split_ifs
    · simp [dropReply, deleteLater, updateConfigStatus, setStatusLabel, setPreview]
    · simp [dropReply, deleteLater, updateConfigStatus, setStatusLabel, setPreview]
    · simp [dropReply, deleteLater, updateConfigStatus, setStatusLabel, setPreview]
    · simp only [dropReply, deleteLater]
      rw [(saveToFile_url qt env _ _).1, (saveToFile_url qt env _ _).2]
      simp [setPreview]
    · simp [dropReply, deleteLater, updateConfigStatus, setStatusLabel, setPreview]
    · simp [dropReply, deleteLater]

/-- A fetch error touches neither the subscription URL nor the stored
setting. -/
theorem onConfigDownloadError_url (qt : QtLib) (env : Env) (w : MainWindow)
    (error : NetworkError) :
    (w.onConfigDownloadError qt env error).m_subscriptionUrl = w.m_subscriptionUrl ∧
      (w.onConfigDownloadError qt env error).settingsUrl = w.settingsUrl := by
  unfold onConfigDownloadError
  cases w.m_currentReply with
  | none => exact ⟨rfl, rfl⟩
  | some reply =>
    dsimp only
    split_ifs <;> simp [dropReply, deleteLater, updateConfigStatus, setStatusLabel, setPreview]

/-- A text accepted by `isValidUrl` satisfies the URL invariant. -/
theorem isValidUrl_valid (qt : QtLib) (w : MainWindow) (url : String)
    (h : (w.isValidUrl qt url).1 = true) : ValidSubscriptionUrl qt url := by
  unfold isValidUrl at h
  simp only [Bool.and_eq_true, Bool.or_eq_true, beq_iff_eq] at h
  exact Or.inr h

/-- One turn of the event loop either keeps the subscription URL and the stored
setting, or is a save whose trimmed, non-empty text passed `isValidUrl` and
became both. -/
theorem step_url (qt : QtLib) (env : Env) (w : MainWindow) (e : Event) :
    ((step qt env w e).m_subscriptionUrl = w.m_subscriptionUrl ∧
      (step qt env w e).settingsUrl = w.settingsUrl) ∨
    (e = Event.saveUrlButton_clicked ∧
      qt.trimmed w.subscriptionUrlEdit ≠ "" ∧
      (w.isValidUrl qt (qt.trimmed w.subscriptionUrlEdit)).1 = true ∧
      (step qt env w e).m_subscriptionUrl = qt.trimmed w.subscriptionUrlEdit ∧
      (step qt env w e).settingsUrl = qt.trimmed w.subscriptionUrlEdit) := by
  cases e with
  | subscriptionUrlEdited text => exact Or.inl ⟨rfl, rfl⟩
  | saveUrlButton_clicked =>
    obtain ⟨ds, hds⟩ := isValidUrl_window qt w (qt.trimmed w.subscriptionUrlEdit)
    simp only [step]
    unfold on_saveUrlButton_clicked
    dsimp only
    split_ifs with h1 h2
    · exact Or.inl ⟨rfl, rfl⟩
    · left
      rw [hds]
      exact ⟨rfl, rfl⟩
    · right
      refine ⟨trivial, h1, by simpa using h2, ?_, ?_⟩
      · simp only [showDialog]
        rw [(updateSubscriptionConfig_url qt _).1]
        simp [updateConfigStatus, setStatusLabel, saveSubscriptionUrl]
      · simp only [showDialog]
        rw [updateSubscriptionConfig_settingsUrl]
        simp [updateConfigStatus, setStatusLabel, saveSubscriptionUrl]
  | updateConfigButton_clicked =>
    left
    simp only [step]
    unfold on_updateConfigButton_clicked
    split_ifs
    · exact ⟨rfl, rfl⟩
    · dsimp only
      rw [(updateSubscriptionConfig_url qt _).1, updateSubscriptionConfig_settingsUrl]
      simp [updateConfigStatus, setStatusLabel]
  | startButton_clicked => exact Or.inl ⟨rfl, rfl⟩
  | stopButton_clicked => exact Or.inl ⟨rfl, rfl⟩
  | configChanged =>
    exact Or.inl ⟨(changeSelectedConfig_frame qt env w).2.2.1,
      changeSelectedConfig_settingsUrl qt env w⟩
  | timeout =>
    left
    simp only [step]
    split_ifs
    · exact ⟨(updateSubscriptionConfig_url qt w).1, updateSubscriptionConfig_settingsUrl qt w⟩
    · exact ⟨rfl, rfl⟩
  | finished reply =>
    left
    simp only [step]
    split_ifs
    · exact onConfigDownloadFinished_url qt env w
    · exact ⟨rfl, rfl⟩
  | errorOccurred reply error =>
    left
    simp only [step]
    split_ifs
    · exact onConfigDownloadError_url qt env w error
    · exact ⟨rfl, rfl⟩

/-- Start-up copies the stored setting into the subscription URL and leaves the
setting as it was. -/
theorem construct_url (qt : QtLib) (env : Env) (appDataPath settingsUrl : String)
    (configFile : Option QByteArray) :
    (MainWindow.construct qt env appDataPath settingsUrl configFile).m_subscriptionUrl =
      settingsUrl ∧
    (MainWindow.construct qt env appDataPath settingsUrl configFile).settingsUrl =
      settingsUrl := by
  unfold MainWindow.construct
  dsimp only
  rw [(changeSelectedConfig_frame qt env _).2.2.1, changeSelectedConfig_settingsUrl]
  unfold loadSubscriptionUrl
  dsimp only
  split_ifs
  · simp only []
    rw [(updateSubscriptionConfig_url qt _).1, updateSubscriptionConfig_settingsUrl]
    simp [updateConfigStatus, setStatusLabel, setPreview]
  · simp [updateConfigStatus, setStatusLabel, setPreview]

/-- Counterexample to C12 as stated: the settings store holds
`ftp://example.com/sub` under `subscription/url` at start-up.
`loadSubscriptionUrl` copies it into the in-memory URL without any check and
starts a fetch for it; the URL is neither empty nor of scheme `http` or
`https`. -/
theorem stored_url_is_loaded_unchecked :
    Reachable Sample.qt
      (MainWindow.construct Sample.qt (Sample.env [] ProcessState.NotRunning true 0) "/data"
        "ftp://example.com/sub" none) ∧
    (MainWindow.construct Sample.qt (Sample.env [] ProcessState.NotRunning true 0) "/data"
        "ftp://example.com/sub" none).m_subscriptionUrl = "ftp://example.com/sub" ∧
    Sample.qt.urlScheme "ftp://example.com/sub" = "ftp" ∧
    ¬ ValidSubscriptionUrl Sample.qt
      (MainWindow.construct Sample.qt (Sample.env [] ProcessState.NotRunning true 0) "/data"
        "ftp://example.com/sub" none).m_subscriptionUrl ∧
    (MainWindow.construct Sample.qt (Sample.env [] ProcessState.NotRunning true 0) "/data"
        "ftp://example.com/sub" none).netCalls =
      [NetCall.get 0 "ftp://example.com/sub" "qsing-box/1.0.0"] :=
  ⟨Reachable.construct _ _ _ _, by decide, by decide, by decide, by decide⟩

/-- C12 as amended: when the value stored under `subscription/url` at start-up
is empty or a valid URL of scheme `http` or `https`, then in every window
reachable from the constructed one the in-memory URL is empty or such a URL and
equals the stored setting (so the next start-up finds such a value again); and
in every window, an event changes the URL only if it is a save whose trimmed
text is non-empty and passed `isValidUrl`, the new URL being that text: no
other operation changes or clears it. -/
theorem subscriptionUrl_invariant (qt : QtLib) (env0 : Env) (appDataPath settingsUrl : String)
    (configFile : Option QByteArray) (w : MainWindow)
    (hstored : ValidSubscriptionUrl qt settingsUrl)
    (hrun : ReachableFrom qt
      (MainWindow.construct qt env0 appDataPath settingsUrl configFile) w) :
    ValidSubscriptionUrl qt w.m_subscriptionUrl ∧
    w.settingsUrl = w.m_subscriptionUrl ∧
    ∀ (env : Env) (e : Event),
      (step qt env w e).m_subscriptionUrl ≠ w.m_subscriptionUrl →
        e = Event.saveUrlButton_clicked ∧
        qt.trimmed w.subscriptionUrlEdit ≠ "" ∧
        (w.isValidUrl qt (qt.trimmed w.subscriptionUrlEdit)).1 = true ∧
        (step qt env w e).m_subscriptionUrl = qt.trimmed w.subscriptionUrlEdit := by
  have hinv : ValidSubscriptionUrl qt w.m_subscriptionUrl ∧
      w.settingsUrl = w.m_subscriptionUrl := by
    induction hrun with
    | start =>
      obtain ⟨h1, h2⟩ := construct_url qt env0 appDataPath settingsUrl configFile
      rw [h1, h2]
      exact ⟨hstored, rfl⟩
    | @step v env e _ ih =>
      rcases step_url qt env v e with ⟨h1, h2⟩ | ⟨_, _, hv, h1, h2⟩
      · rw [h1, h2]
        exact ih
      · rw [h1, h2]
        exact ⟨isValidUrl_valid qt v _ hv, rfl⟩
  refine ⟨hinv.1, hinv.2, ?_⟩
  intro env e hne
  rcases step_url qt env w e with ⟨h1, _⟩ | ⟨he, hne', hv, h1, _⟩
  · exact absurd h1 hne
  · exact ⟨he, hne', hv, h1⟩

/-- Witness for C12 as amended: start-up with the stored URL
`https://example.com/sub`, then the user types ` http://example.org/b ` and
presses save; the save is the event that changes the URL. -/
theorem subscriptionUrl_invariant_witness :
    ValidSubscriptionUrl Sample.qt "https://example.com/sub" ∧
    (ValidSubscriptionUrl Sample.qt (Sample.editedWindow " http://example.org/b ").m_subscriptionUrl ∧
      (Sample.editedWindow " http://example.org/b ").settingsUrl =
        (Sample.editedWindow " http://example.org/b ").m_subscriptionUrl) ∧
    (step Sample.qt (Sample.env [] ProcessState.NotRunning true 0)
        (Sample.editedWindow " http://example.org/b ")
        Event.saveUrlButton_clicked).m_subscriptionUrl = "http://example.org/b" :=
  ⟨by decide,
    ⟨(subscriptionUrl_invariant Sample.qt (Sample.env [] ProcessState.NotRunning true 0) "/data"
        "https://example.com/sub" none (Sample.editedWindow " http://example.org/b ")
        (by decide) (ReachableFrom.step _ _ ReachableFrom.start)).1,
      (subscriptionUrl_invariant Sample.qt (Sample.env [] ProcessState.NotRunning true 0) "/data"
        "https://example.com/sub" none (Sample.editedWindow " http://example.org/b ")
        (by decide) (ReachableFrom.step _ _ ReachableFrom.start)).2.1⟩,
    ((subscriptionUrl_invariant Sample.qt (Sample.env [] ProcessState.NotRunning true 0) "/data"
        "https://example.com/sub" none (Sample.editedWindow " http://example.org/b ")
        (by decide) (ReachableFrom.step _ _ ReachableFrom.start)).2.2
      (Sample.env [] ProcessState.NotRunning true 0) Event.saveUrlButton_clicked
      (by decide)).2.2.2⟩

/-- With the URL set, the file present and readable, `changeSelectedConfig`
reports `Using subscription config` exactly when the content passes its
checks. -/
theorem changeSelectedConfig_using_iff (qt : QtLib) (env : Env) (w : MainWindow)
    (B : QByteArray)
    (hurl : w.m_subscriptionUrl ≠ "")
    (hfile : w.configFile = some B)
    (hread : env.openReadOnly = true) :
    (w.changeSelectedConfig qt env).configStatusLabel = "Status: Using subscription config" ↔
      DiskConfigAccepted qt B := by
  unfold changeSelectedConfig restartIfRunning stopIfRunning DiskConfigAccepted
  simp only [hurl, hfile, hread, ne_eq, not_false_eq_true, Option.isSome_some, and_self,
    if_true, Option.getD_some]
  split_ifs <;>
    simp_all [setStatusLabel, setPreview, setConfigFilePath, stopProxy, startProxy]

/-- For the current reply completed without error, `onConfigDownloadFinished`
goes on to the config file exactly when the body is non-empty, parses, is an
object and has one of the two keys. -/
theorem onConfigDownloadFinished_accepts_iff (qt : QtLib) (env : Env) (w : MainWindow)
    (reply : Nat)
    (hcur : w.m_currentReply = some reply)
    (herr : env.replyError reply = NetworkError.NoError) :
    (w.onConfigDownloadFinished qt env).fileOps ≠ w.fileOps ↔
      DiskConfigAccepted qt (env.replyReadAll reply) := by
  unfold DiskConfigAccepted
  constructor
  · intro hchanged
    by_contra hrej
    apply hchanged
    refine (rejected_body_keeps_fileOps qt env w reply hcur herr ?_)
    by_cases hne : env.replyReadAll reply = []
    · exact Or.inl hne
    · by_cases hp : (qt.fromJson (env.replyReadAll reply)).noError = false
      · exact Or.inr (Or.inl hp)
      · by_cases ho : (qt.fromJson (env.replyReadAll reply)).isObject = false
        · exact Or.inr (Or.inr (Or.inl ho))
        · refine Or.inr (Or.inr (Or.inr ?_))
          have hp' : (qt.fromJson (env.replyReadAll reply)).noError = true := by simpa using hp
          have ho' : (qt.fromJson (env.replyReadAll reply)).isObject = true := by simpa using ho
          constructor
          · cases hin : (qt.fromJson (env.replyReadAll reply)).contains "inbounds"
            · rfl
            · exact absurd ⟨hne, ⟨hp', ho'⟩, Or.inl hin⟩ hrej
          · cases hout : (qt.fromJson (env.replyReadAll reply)).contains "outbounds"
            · rfl
            · exact absurd ⟨hne, ⟨hp', ho'⟩, Or.inr hout⟩ hrej
  · rintro ⟨hne, ⟨hparse, hobj⟩, hkey⟩
    rw [onConfigDownloadFinished_valid qt env w reply hcur herr hne hparse hobj hkey]
    obtain ⟨_, ⟨ops, hops⟩⟩ := saveToFile_logs qt env
      (w.setPreview (qt.fromJson (env.replyReadAll reply)).toJsonIndented)
      (env.replyReadAll reply)
    simp only [dropReply, deleteLater, hops]
    simp [setPreview]

/-- C13 (the two validators agree): for every buffer `B` carried by the current
reply without error, the check of `changeSelectedConfig` on a readable file
holding `B` (with a non-empty URL) reaches `Using subscription config` iff the
check of `onConfigDownloadFinished` accepts `B`, that is goes on to the config
file; hence, with a non-empty URL, a complete write and a read that returns the
written bytes, the reconciliation after an accepted download selects the
subscription document: the status is `Using subscription config`, the config
path is set to the subscription file, and a Stop is issued only as the first
half of a restart of a running process. -/
theorem download_and_disk_checks_agree (qt : QtLib) (env : Env) (w : MainWindow) (reply : Nat)
    (hcur : w.m_currentReply = some reply)
    (herr : env.replyError reply = NetworkError.NoError) :
    (∀ (env2 : Env) (v : MainWindow),
      v.m_subscriptionUrl ≠ "" → v.configFile = some (env.replyReadAll reply) →
      env2.openReadOnly = true →
      ((v.changeSelectedConfig qt env2).configStatusLabel =
          "Status: Using subscription config" ↔
        (w.onConfigDownloadFinished qt env).fileOps ≠ w.fileOps)) ∧
    ((w.onConfigDownloadFinished qt env).fileOps ≠ w.fileOps →
      w.m_subscriptionUrl ≠ "" → env.openWriteOnly = true →
      (env.replyReadAll reply).length ≤ env.written → env.openReadOnly = true →
      ((w.onConfigDownloadFinished qt env).configStatusLabel =
          "Status: Using subscription config" ∧
        (w.onConfigDownloadFinished qt env).proxyCalls =
          w.proxyCalls ++ ProxyCall.setConfigFilePath w.m_configFilePath :: restartCalls env)) := by
  constructor
  · intro env2 v hurl hfile hread
    rw [changeSelectedConfig_using_iff qt env2 v _ hurl hfile hread,
      onConfigDownloadFinished_accepts_iff qt env w reply hcur herr]
  · intro hacc hurl hopen hfull hread
    obtain ⟨hne, ⟨hparse, hobj⟩, hkey⟩ :=
      (onConfigDownloadFinished_accepts_iff qt env w reply hcur herr).1 hacc
    rw [onConfigDownloadFinished_valid qt env w reply hcur herr hne hparse hobj hkey,
      saveToFile_opened qt env _ _ hopen,
      changeSelectedConfig_subscription qt env _ (env.replyReadAll reply)
        (by simpa [updateConfigStatus, setStatusLabel, setPreview] using hurl)
        (by simp [updateConfigStatus, setStatusLabel, setPreview, List.take_of_length_le hfull])
        hread hne hparse hobj hkey]
    unfold restartIfRunning restartCalls
    split_ifs <;>
      simp [dropReply, deleteLater, setStatusLabel, setConfigFilePath, setPreview,
        updateConfigStatus, stopProxy, startProxy]

/-- Witness for C13: the reply carries `{"inbounds":[]}`; a window whose file
holds these bytes reports `Using subscription config`, and so does the handler
after the complete write, restarting the running process. -/
theorem download_and_disk_checks_agree_witness :
    ((Sample.window (some Sample.inboundsDoc)).changeSelectedConfig Sample.qt
        (Sample.env [] ProcessState.NotRunning true 0)).configStatusLabel =
      "Status: Using subscription config" ∧
    ((Sample.window none).onConfigDownloadFinished Sample.qt
        (Sample.env Sample.inboundsDoc ProcessState.Running true 15)).configStatusLabel =
      "Status: Using subscription config" ∧
    ((Sample.window none).onConfigDownloadFinished Sample.qt
        (Sample.env Sample.inboundsDoc ProcessState.Running true 15)).proxyCalls =
      [ProxyCall.setConfigFilePath "/data/subscription_config.json", ProxyCall.stopProxy,
        ProxyCall.startProxy] :=
  ⟨((download_and_disk_checks_agree Sample.qt
        (Sample.env Sample.inboundsDoc ProcessState.Running true 15) (Sample.window none) 0
        (by decide) (by decide)).1
      (Sample.env [] ProcessState.NotRunning true 0) (Sample.window (some Sample.inboundsDoc))
      (by decide) (by decide) (by decide)).2 (by decide),
    (download_and_disk_checks_agree Sample.qt
        (Sample.env Sample.inboundsDoc ProcessState.Running true 15) (Sample.window none) 0
        (by decide) (by decide)).2 (by decide) (by decide) (by decide) (by decide) (by decide)⟩

end Theorems

end QSingBox
